import Mathlib

/-!
# LearnOpenGL/WindowApplication.cpp

A shallow embedding of the window application.  Every call into GLFW, GLAD or
OpenGL is recorded as a `Call` in an effect trace carried by a `World`; what the
libraries answer (handles, statuses, info logs, key states, the effect of event
polling on the should-close flag, the framebuffer resizes a poll delivers) is
supplied by an `Env`.  The render loop is
run with a bound on the number of guard evaluations: a run that is still
looping when the bound is reached has exit code `none` and the trace produced
so far.
-/

namespace LearnOpenGL

/-! ## Constants and calls -/

/-- Header constants used by the program, kept symbolic. -/
inductive GLconst where
  | GLFW_CONTEXT_VERSION_MAJOR
  | GLFW_CONTEXT_VERSION_MINOR
  | GLFW_OPENGL_PROFILE
  | GLFW_OPENGL_CORE_PROFILE
  | GLFW_KEY_ESCAPE
  | GL_FRONT_AND_BACK
  | GL_LINE
  | GL_COLOR_BUFFER_BIT
  | GL_VERTEX_SHADER
  | GL_FRAGMENT_SHADER
  | GL_COMPILE_STATUS
  | GL_LINK_STATUS
  | GL_ARRAY_BUFFER
  | GL_ELEMENT_ARRAY_BUFFER
  | GL_STATIC_DRAW
  | GL_FLOAT
  | GL_UNSIGNED_INT
  | GL_TRIANGLES
  deriving DecidableEq, Repr

/-- The key states `glfwGetKey` can report. -/
inductive KeyAction where
  | GLFW_RELEASE
  | GLFW_PRESS
  | GLFW_REPEAT
  deriving DecidableEq, Repr

/-- The second argument of `glfwWindowHint`: an integer literal or a constant. -/
inductive HintValue where
  | lit (n : Int)
  | sym (c : GLconst)
  deriving DecidableEq, Repr

/-- The array handed to `glBufferData`: float literals are read as the exact
rationals they denote (every literal in `vertices` is a dyadic rational),
unsigned indices as naturals. -/
inductive BufferData where
  | floats (xs : List Rat)
  | uints (xs : List Nat)
  deriving DecidableEq, Repr

/-- One library call with its arguments.  Calls that create an object carry the
name the library returned (`ret`); status and info-log queries carry only
their arguments, the answer is read from the `Env`. -/
inductive Call where
  | glfwInit
  | glfwWindowHint (hint : GLconst) (value : HintValue)
  | glfwCreateWindow (width height : Nat) (title : String)
  | glfwTerminate
  | glfwMakeContextCurrent (window : Nat)
  | glfwSetFramebufferSizeCallback (window : Nat)
  | gladLoadGLLoader
  | glfwWindowShouldClose (window : Nat)
  | glfwGetKey (window : Nat) (key : GLconst)
  | glfwSetWindowShouldClose (window : Nat) (value : Bool)
  | glfwSwapBuffers (window : Nat)
  | glfwPollEvents
  | glViewport (x y width height : Int)
  | glCreateProgram (ret : Nat)
  | glCreateShader (type : GLconst) (ret : Nat)
  | glShaderSource (shader : Nat) (count : Nat) (source : String)
  | glCompileShader (shader : Nat)
  | glGetShaderiv (shader : Nat) (pname : GLconst)
  | glGetShaderInfoLog (shader : Nat) (bufSize : Nat)
  | glAttachShader (program shader : Nat)
  | glLinkProgram (program : Nat)
  | glGetProgramiv (program : Nat) (pname : GLconst)
  | glGetProgramInfoLog (program : Nat) (bufSize : Nat)
  | glDeleteShader (shader : Nat)
  | glGenVertexArrays (n : Nat) (ret : Nat)
  | glGenBuffers (n : Nat) (ret : Nat)
  | glBindVertexArray (array : Nat)
  | glBindBuffer (target : GLconst) (buffer : Nat)
  | glBufferData (target : GLconst) (size : Nat) (data : BufferData) (usage : GLconst)
  | glVertexAttribPointer (index : Nat) (size : Nat) (type : GLconst) (normalized : Bool)
      (stride : Nat) (pointer : Nat)
  | glEnableVertexAttribArray (index : Nat)
  | glPolygonMode (face mode : GLconst)
  | glClearColor (red green blue alpha : Rat)
  | glClear (mask : GLconst)
  | glUseProgram (program : Nat)
  | glDrawElements (mode : GLconst) (count : Nat) (type : GLconst) (indices : Nat)
  | glDeleteProgram (program : Nat)
  | glDeleteVertexArrays (n : Nat) (array : Nat)
  | glDeleteBuffers (n : Nat) (buffer : Nat)
  deriving DecidableEq, Repr

/-! ## Environment and world -/

/-- What the libraries answer.  `createWindow = none` is a null window pointer;
`escapeKey k` is the state of the escape key after `k` calls of
`glfwPollEvents`; `pollEvents k flag` is the should-close flag after the
`k`-th poll when it was `flag` before; `resizes k` lists, in order, the framebuffer
sizes (width, height) whose change the `k`-th poll reports; `genBuffer k` is the
name written by the `k`-th call of `glGenBuffers`. -/
structure Env where
  createWindow : Option Nat
  initialShouldClose : Bool
  loadGL : Int
  createProgram : Nat
  createShader : GLconst → Nat
  compileStatus : Nat → Int
  linkStatus : Nat → Int
  shaderInfoLog : Nat → Nat → String
  programInfoLog : Nat → Nat → String
  genVertexArray : Nat
  genBuffer : Nat → Nat
  escapeKey : Nat → KeyAction
  pollEvents : Nat → Bool → Bool
  resizes : Nat → List (Int × Int)

/-- The observable state of a run: the calls made so far, standard output,
the window's should-close flag, how many polls and buffer generations have
happened, and the window (if any) for which `framebuffer_size_callback` is
registered. -/
structure World where
  trace : List Call
  stdout : String
  shouldClose : Bool
  polls : Nat
  buffersGenerated : Nat
  resizeCallback : Option Nat

/-- The outcome of `main`: the final world and the exit code (`none` while the
render loop is still running). -/
structure Result where
  world : World
  exit : Option Int

def World.start : World :=
  { trace := [], stdout := "", shouldClose := false, polls := 0, buffersGenerated := 0,
    resizeCallback := none }

/-- Record a library call. -/
def emit (c : Call) (w : World) : World :=
  { w with trace := w.trace ++ [c] }

/-- Effect of `std::cout << s`. -/
def print (s : String) (w : World) : World :=
  { w with stdout := w.stdout ++ s }

/-! ## Library calls with an effect on the world -/

def glfwCreateWindow (env : Env) (width height : Nat) (title : String) (w : World) :
    Option Nat × World :=
  (env.createWindow,
    { emit (.glfwCreateWindow width height title) w with shouldClose := env.initialShouldClose })

def glfwWindowShouldClose (pWindow : Nat) (w : World) : Bool × World :=
  (w.shouldClose, emit (.glfwWindowShouldClose pWindow) w)

def glfwGetKey (env : Env) (pWindow : Nat) (key : GLconst) (w : World) : KeyAction × World :=
  (env.escapeKey w.polls, emit (.glfwGetKey pWindow key) w)

def glfwSetWindowShouldClose (pWindow : Nat) (value : Bool) (w : World) : World :=
  { emit (.glfwSetWindowShouldClose pWindow value) w with shouldClose := value }

/-- The `framebuffer_size_callback` of the program: it sets the viewport. -/
def framebuffer_size_callback (_pWindow : Nat) (width height : Int) (w : World) : World :=
  emit (.glViewport 0 0 width height) w

/-- Registration of `framebuffer_size_callback` for the window. -/
def glfwSetFramebufferSizeCallback (pWindow : Nat) (w : World) : World :=
  { emit (.glfwSetFramebufferSizeCallback pWindow) w with resizeCallback := some pWindow }

/-- Event processing: the registered resize callback is called once for every
framebuffer resize this poll reports, and the should-close flag is updated. -/
def glfwPollEvents (env : Env) (w : World) : World :=
  let w := emit .glfwPollEvents w
  let w :=
    match w.resizeCallback with
    | some pWindow =>
      (env.resizes w.polls).foldl
        (fun w (size : Int × Int) => framebuffer_size_callback pWindow size.1 size.2 w) w
    | none => w
  { w with shouldClose := env.pollEvents w.polls w.shouldClose, polls := w.polls + 1 }

def glGenBuffers (env : Env) (n : Nat) (w : World) : Nat × World :=
  (env.genBuffer w.buffersGenerated,
    { emit (.glGenBuffers n (env.genBuffer w.buffersGenerated)) w with
      buffersGenerated := w.buffersGenerated + 1 })

/-! ## The program -/

def SCREEN_WIDTH : Nat := 800
def SCREEN_HEIGHT : Nat := 600
def LOG_LENGTH : Nat := 512

/-- Rounding of a rational to the nearest integer, ties to the even one. -/
def roundHalfEven (q : Rat) : Int :=
  if q - ⌊q⌋ < 1 / 2 then ⌊q⌋
  else if 1 / 2 < q - ⌊q⌋ then ⌊q⌋ + 1
  else if ⌊q⌋ % 2 = 0 then ⌊q⌋
  else ⌊q⌋ + 1

/-- The binary exponent `e` of a positive rational, `2 ^ e ≤ q < 2 ^ (e + 1)`, found in
at most `fuel` doublings or halvings. -/
def exponent2 : Nat → Rat → Int
  | 0, _ => 0
  | fuel + 1, q =>
    if q < 1 then exponent2 fuel (q * 2) - 1
    else if 2 ≤ q then exponent2 fuel (q / 2) + 1
    else 0

/-- The value of a `float` literal: the decimal it is written as, rounded to the
nearest binary32 number (24-bit significand, ties to even, least exponent -126).
Overflow to infinity is not modelled; no literal of the program is near it. -/
def binary32 (q : Rat) : Rat :=
  if q = 0 then 0
  else
    roundHalfEven (q / (2 : Rat) ^ (max (exponent2 300 |q|) (-126) - 23)) *
      (2 : Rat) ^ (max (exponent2 300 |q|) (-126) - 23)

/-- Size in bytes of `float` (`sizeof(float)`). -/
def sizeofFloat : Nat := 4

/-- Size in bytes of `unsigned int` (`sizeof(unsigned int)`). -/
def sizeofUInt : Nat := 4

def processInput (env : Env) (pWindow : Nat) (w : World) : World :=
  let (state, w) := glfwGetKey env pWindow .GLFW_KEY_ESCAPE w
  if state = .GLFW_PRESS then
    glfwSetWindowShouldClose pWindow true w
  else
    w

def vertexShaderSource : String :=
  "\n\t\t#version 330 core\n\n\t\tlayout (location = 0) in vec3 aPos;\n\n\t\tvoid main()\n\t\t\x7b\n\t\t\tgl_Position = vec4(aPos.x, aPos.y, aPos.z, 1.0f);\n\t\t\x7d"

def fragmentShaderSource : String :=
  "\n\t\t#version 330 core\n\n\t\tout vec4 FragColor;\n\n\t\tvoid main()\n\t\t\x7b\n\t\t\tFragColor = vec4(1.0f, 0.5f, 0.2f, 1.0f);\n\t\t\x7d"

def prepareVertexShader (env : Env) (vertexShader : Nat) (w : World) : World :=
  let w := emit (.glShaderSource vertexShader 1 vertexShaderSource) w
  let w := emit (.glCompileShader vertexShader) w
  let w := emit (.glGetShaderiv vertexShader .GL_COMPILE_STATUS) w
  let success := env.compileStatus vertexShader
  if success = 0 then
    let w := emit (.glGetShaderInfoLog vertexShader LOG_LENGTH) w
    let log := env.shaderInfoLog vertexShader LOG_LENGTH
    print ("vertext shader compile fail! " ++ log ++ "\n") w
  else
    w

def prepareFragmentShader (env : Env) (fragmentShader : Nat) (w : World) : World :=
  let w := emit (.glShaderSource fragmentShader 1 fragmentShaderSource) w
  let w := emit (.glCompileShader fragmentShader) w
  let w := emit (.glGetShaderiv fragmentShader .GL_COMPILE_STATUS) w
  let success := env.compileStatus fragmentShader
  if success = 0 then
    let w := emit (.glGetShaderInfoLog fragmentShader LOG_LENGTH) w
    let log := env.shaderInfoLog fragmentShader LOG_LENGTH
    print ("fragment shader compile fail! " ++ log ++ "\n") w
  else
    w

def prepareShader (env : Env) (shaderProgram : Nat) (w : World) : World :=
  let vertexShader := env.createShader .GL_VERTEX_SHADER
  let w := emit (.glCreateShader .GL_VERTEX_SHADER vertexShader) w
  let w := prepareVertexShader env vertexShader w
  let w := emit (.glAttachShader shaderProgram vertexShader) w
  let fragmentShader := env.createShader .GL_FRAGMENT_SHADER
  let w := emit (.glCreateShader .GL_FRAGMENT_SHADER fragmentShader) w
  let w := prepareFragmentShader env fragmentShader w
  let w := emit (.glAttachShader shaderProgram fragmentShader) w
  let w := emit (.glLinkProgram shaderProgram) w
  let w := emit (.glGetProgramiv shaderProgram .GL_LINK_STATUS) w
  let success := env.linkStatus shaderProgram
  let w :=
    if success = 0 then
      let w := emit (.glGetProgramInfoLog shaderProgram LOG_LENGTH) w
      let log := env.programInfoLog shaderProgram LOG_LENGTH
      print ("shader link fail! " ++ log ++ "\n") w
    else
      w
  let w := emit (.glDeleteShader vertexShader) w
  emit (.glDeleteShader fragmentShader) w

/-- The array `vertices` of `prepareVertex`. -/
def vertices : List Rat :=
  [ 0.5, 0.5, 0.0,
    0.5, -0.5, 0.0,
    -0.5, -0.5, 0.0,
    -0.5, 0.5, 0.0 ]

/-- The array `indices` of `prepareVertex`. -/
def indices : List Nat :=
  [ 0, 1, 3,
    1, 2, 3 ]

def prepareVertex (VAO VBO EBO : Nat) (w : World) : World :=
  let w := emit (.glBindVertexArray VAO) w
  let w := emit (.glBindBuffer .GL_ARRAY_BUFFER VBO) w
  let w := emit (.glBindBuffer .GL_ELEMENT_ARRAY_BUFFER EBO) w
  let w := emit (.glBufferData .GL_ARRAY_BUFFER (vertices.length * sizeofFloat)
    (.floats vertices) .GL_STATIC_DRAW) w
  let w := emit (.glBufferData .GL_ELEMENT_ARRAY_BUFFER (indices.length * sizeofUInt)
    (.uints indices) .GL_STATIC_DRAW) w
  let w := emit (.glVertexAttribPointer 0 3 .GL_FLOAT false (3 * sizeofFloat) 0) w
  let w := emit (.glEnableVertexAttribArray 0) w
  let w := emit (.glBindVertexArray 0) w
  let w := emit (.glBindBuffer .GL_ARRAY_BUFFER 0) w
  emit (.glBindBuffer .GL_ELEMENT_ARRAY_BUFFER 0) w

def drawTriangle (shaderProgram VAO : Nat) (w : World) : World :=
  let w := emit (.glUseProgram shaderProgram) w
  let w := emit (.glBindVertexArray VAO) w
  let w := emit (.glDrawElements .GL_TRIANGLES 6 .GL_UNSIGNED_INT 0) w
  emit (.glBindVertexArray 0) w

/-- The `while` loop of `main`.  `fuel` bounds the number of guard evaluations;
the Boolean is `true` when the loop was left through its guard. -/
def renderLoop (env : Env) (pWindow shaderProgram VAO : Nat) : Nat → World → World × Bool
  | 0, w => (w, false)
  | fuel + 1, w =>
    let (close, w) := glfwWindowShouldClose pWindow w
    if close then
      (w, true)
    else
      let w := processInput env pWindow w
      let w := emit (.glClearColor (binary32 0.2) (binary32 0.3) (binary32 0.3) (binary32 1.0)) w
      let w := emit (.glClear .GL_COLOR_BUFFER_BIT) w
      let w := drawTriangle shaderProgram VAO w
      let w := emit (.glfwSwapBuffers pWindow) w
      let w := glfwPollEvents env w
      renderLoop env pWindow shaderProgram VAO fuel w

def main (env : Env) (fuel : Nat) : Result :=
  let w := World.start
  let w := emit .glfwInit w
  let w := emit (.glfwWindowHint .GLFW_CONTEXT_VERSION_MAJOR (.lit 3)) w
  let w := emit (.glfwWindowHint .GLFW_CONTEXT_VERSION_MINOR (.lit 3)) w
  let w := emit (.glfwWindowHint .GLFW_OPENGL_PROFILE (.sym .GLFW_OPENGL_CORE_PROFILE)) w
  match glfwCreateWindow env SCREEN_WIDTH SCREEN_HEIGHT "LearnOpenGL" w with
  | (none, w) =>
    let w := print "Failed to create GLFW window\n" w
    let w := emit .glfwTerminate w
    { world := w, exit := some (-1) }
  | (some pWindow, w) =>
    let w := emit (.glfwMakeContextCurrent pWindow) w
    let w := glfwSetFramebufferSizeCallback pWindow w
    let w := emit .gladLoadGLLoader w
    if env.loadGL = 0 then
      let w := print "Failed to initialize GLAD\n" w
      let w := emit .glfwTerminate w
      { world := w, exit := some (-1) }
    else
      let shaderProgram := env.createProgram
      let w := emit (.glCreateProgram shaderProgram) w
      let w := prepareShader env shaderProgram w
      let VAO := env.genVertexArray
      let w := emit (.glGenVertexArrays 1 VAO) w
      let (VBO, w) := glGenBuffers env 1 w
      let (EBO, w) := glGenBuffers env 1 w
      let w := prepareVertex VAO VBO EBO w
      let w := emit (.glPolygonMode .GL_FRONT_AND_BACK .GL_LINE) w
      match renderLoop env pWindow shaderProgram VAO fuel w with
      | (w, false) => { world := w, exit := none }
      | (w, true) =>
        let w := emit (.glDeleteProgram shaderProgram) w
        let w := emit (.glDeleteVertexArrays 1 VAO) w
        let w := emit (.glDeleteBuffers 1 VBO) w
        let w := emit (.glDeleteBuffers 1 EBO) w
        let w := emit .glfwTerminate w
        { world := w, exit := some 0 }

/-! ## Closed forms of the traces -/

def processInputCalls (env : Env) (pWindow k : Nat) : List Call :=
  .glfwGetKey pWindow .GLFW_KEY_ESCAPE ::
    (if env.escapeKey k = .GLFW_PRESS then [.glfwSetWindowShouldClose pWindow true] else [])

def drawTriangleCalls (shaderProgram VAO : Nat) : List Call :=
  [ .glUseProgram shaderProgram, .glBindVertexArray VAO,
    .glDrawElements .GL_TRIANGLES 6 .GL_UNSIGNED_INT 0, .glBindVertexArray 0 ]

/-- The `glViewport` calls the resize callback makes during the `k`-th poll. -/
def viewportCalls (env : Env) (k : Nat) : List Call :=
  (env.resizes k).map fun size => .glViewport 0 0 size.1 size.2

/-- The calls of the loop body in the iteration that starts after `k` polls, the
calls of the resize callback during its poll included. -/
def bodyCalls (env : Env) (pWindow shaderProgram VAO k : Nat) : List Call :=
  processInputCalls env pWindow k ++
    [ .glClearColor (binary32 0.2) (binary32 0.3) (binary32 0.3) (binary32 1.0),
      .glClear .GL_COLOR_BUFFER_BIT ] ++
    drawTriangleCalls shaderProgram VAO ++
    [ .glfwSwapBuffers pWindow, .glfwPollEvents ] ++ viewportCalls env k

/-- The calls of `n` consecutive iterations starting after `k` polls, each one
preceded by the evaluation of the loop guard. -/
def loopCalls (env : Env) (pWindow shaderProgram VAO : Nat) : Nat → Nat → List Call
  | _, 0 => []
  | k, n + 1 =>
    .glfwWindowShouldClose pWindow :: bodyCalls env pWindow shaderProgram VAO k ++
      loopCalls env pWindow shaderProgram VAO (k + 1) n

def vertexStageCalls (env : Env) (vertexShader : Nat) : List Call :=
  [ .glShaderSource vertexShader 1 vertexShaderSource, .glCompileShader vertexShader,
    .glGetShaderiv vertexShader .GL_COMPILE_STATUS ] ++
    (if env.compileStatus vertexShader = 0 then [.glGetShaderInfoLog vertexShader 512] else [])

def fragmentStageCalls (env : Env) (fragmentShader : Nat) : List Call :=
  [ .glShaderSource fragmentShader 1 fragmentShaderSource, .glCompileShader fragmentShader,
    .glGetShaderiv fragmentShader .GL_COMPILE_STATUS ] ++
    (if env.compileStatus fragmentShader = 0 then [.glGetShaderInfoLog fragmentShader 512]
     else [])

def prepareShaderCalls (env : Env) (shaderProgram : Nat) : List Call :=
  [ .glCreateShader .GL_VERTEX_SHADER (env.createShader .GL_VERTEX_SHADER) ] ++
    vertexStageCalls env (env.createShader .GL_VERTEX_SHADER) ++
    [ .glAttachShader shaderProgram (env.createShader .GL_VERTEX_SHADER),
      .glCreateShader .GL_FRAGMENT_SHADER (env.createShader .GL_FRAGMENT_SHADER) ] ++
    fragmentStageCalls env (env.createShader .GL_FRAGMENT_SHADER) ++
    [ .glAttachShader shaderProgram (env.createShader .GL_FRAGMENT_SHADER),
      .glLinkProgram shaderProgram, .glGetProgramiv shaderProgram .GL_LINK_STATUS ] ++
    (if env.linkStatus shaderProgram = 0 then [.glGetProgramInfoLog shaderProgram 512]
     else []) ++
    [ .glDeleteShader (env.createShader .GL_VERTEX_SHADER),
      .glDeleteShader (env.createShader .GL_FRAGMENT_SHADER) ]

/-- One line per failed stage, in the order vertex, fragment, link. -/
def prepareShaderOutput (env : Env) (shaderProgram : Nat) : String :=
  (if env.compileStatus (env.createShader .GL_VERTEX_SHADER) = 0 then
      "vertext shader compile fail! " ++
        env.shaderInfoLog (env.createShader .GL_VERTEX_SHADER) 512 ++ "\n"
    else "") ++
  ((if env.compileStatus (env.createShader .GL_FRAGMENT_SHADER) = 0 then
      "fragment shader compile fail! " ++
        env.shaderInfoLog (env.createShader .GL_FRAGMENT_SHADER) 512 ++ "\n"
    else "") ++
  (if env.linkStatus shaderProgram = 0 then
      "shader link fail! " ++ env.programInfoLog shaderProgram 512 ++ "\n"
    else ""))

def prepareVertexCalls (VAO VBO EBO : Nat) : List Call :=
  [ .glBindVertexArray VAO, .glBindBuffer .GL_ARRAY_BUFFER VBO,
    .glBindBuffer .GL_ELEMENT_ARRAY_BUFFER EBO,
    .glBufferData .GL_ARRAY_BUFFER 48 (.floats vertices) .GL_STATIC_DRAW,
    .glBufferData .GL_ELEMENT_ARRAY_BUFFER 24 (.uints indices) .GL_STATIC_DRAW,
    .glVertexAttribPointer 0 3 .GL_FLOAT false 12 0, .glEnableVertexAttribArray 0,
    .glBindVertexArray 0, .glBindBuffer .GL_ARRAY_BUFFER 0,
    .glBindBuffer .GL_ELEMENT_ARRAY_BUFFER 0 ]

/-- The calls up to and including the creation of the window. -/
def windowCalls : List Call :=
  [ .glfwInit, .glfwWindowHint .GLFW_CONTEXT_VERSION_MAJOR (.lit 3),
    .glfwWindowHint .GLFW_CONTEXT_VERSION_MINOR (.lit 3),
    .glfwWindowHint .GLFW_OPENGL_PROFILE (.sym .GLFW_OPENGL_CORE_PROFILE),
    .glfwCreateWindow 800 600 "LearnOpenGL" ]

/-- The calls that set up the context, up to and including the loader. -/
def contextCalls (pWindow : Nat) : List Call :=
  [ .glfwMakeContextCurrent pWindow, .glfwSetFramebufferSizeCallback pWindow,
    .gladLoadGLLoader ]

/-- The calls between the loader and the render loop. -/
def setupCalls (env : Env) : List Call :=
  [ .glCreateProgram env.createProgram ] ++ prepareShaderCalls env env.createProgram ++
    [ .glGenVertexArrays 1 env.genVertexArray, .glGenBuffers 1 (env.genBuffer 0),
      .glGenBuffers 1 (env.genBuffer 1) ] ++
    prepareVertexCalls env.genVertexArray (env.genBuffer 0) (env.genBuffer 1) ++
    [ .glPolygonMode .GL_FRONT_AND_BACK .GL_LINE ]

def cleanupCalls (env : Env) : List Call :=
  [ .glDeleteProgram env.createProgram, .glDeleteVertexArrays 1 env.genVertexArray,
    .glDeleteBuffers 1 (env.genBuffer 0), .glDeleteBuffers 1 (env.genBuffer 1),
    .glfwTerminate ]

/-- The iterations as the specification words them: `n` iterations, each consisting
in this order of `processInput`, `glClearColor`, `glClear`, `drawTriangle`,
`glfwSwapBuffers`, `glfwPollEvents`, and nothing else. -/
def claimedIterations (env : Env) (pWindow shaderProgram VAO : Nat) : Nat → Nat → List Call
  | _, 0 => []
  | k, n + 1 =>
    processInputCalls env pWindow k ++
      [ .glClearColor (binary32 0.2) (binary32 0.3) (binary32 0.3) (binary32 1.0),
        .glClear .GL_COLOR_BUFFER_BIT ] ++
      drawTriangleCalls shaderProgram VAO ++
      [ .glfwSwapBuffers pWindow, .glfwPollEvents ] ++
      claimedIterations env pWindow shaderProgram VAO (k + 1) n

/-- The trace as the specification words it: set-up, then `n` iterations, then the
four deletions, then `glfwTerminate`. -/
def claimedTrace (env : Env) (pWindow n : Nat) : List Call :=
  windowCalls ++ contextCalls pWindow ++ setupCalls env ++
    claimedIterations env pWindow env.createProgram env.genVertexArray 0 n ++
    cleanupCalls env

/-- The trace of a run on the success path whose loop runs `n` iterations. -/
def successTrace (env : Env) (pWindow n : Nat) : List Call :=
  windowCalls ++ contextCalls pWindow ++ setupCalls env ++
    loopCalls env pWindow env.createProgram env.genVertexArray 0 n ++
    [ .glfwWindowShouldClose pWindow ] ++ cleanupCalls env

/-- The should-close flag seen by the loop guard after `k` iterations. -/
def flagAt (env : Env) : Nat → Bool
  | 0 => env.initialShouldClose
  | k + 1 => env.pollEvents k (decide (env.escapeKey k = .GLFW_PRESS) || flagAt env k)

/-- The guard lets exactly `n` iterations start. -/
def runsFrames (env : Env) (n : Nat) : Prop :=
  (∀ k, k < n → flagAt env k = false) ∧ flagAt env n = true

/-! ## Predicates on calls and traces -/

/-- Calls that create a GPU object (program, shader, vertex array, buffer). -/
def Call.createsObject : Call → Bool
  | .glCreateProgram _ | .glCreateShader _ _ | .glGenVertexArrays _ _ | .glGenBuffers _ _ => true
  | _ => false

/-- Calls that delete one of the long-lived objects. -/
def Call.deletesObject : Call → Bool
  | .glDeleteProgram _ | .glDeleteVertexArrays _ _ | .glDeleteBuffers _ _ => true
  | _ => false

/-- The kinds of call the loop guard and the loop body make, the `glViewport` of
the resize callback included. -/
def Call.isLoopCall : Call → Bool
  | .glfwWindowShouldClose _ | .glfwGetKey _ _ | .glfwSetWindowShouldClose _ _
  | .glClearColor _ _ _ _ | .glClear _ | .glUseProgram _ | .glDrawElements _ _ _ _
  | .glfwSwapBuffers _ | .glfwPollEvents => true
  | .glBindVertexArray _ => true
  | .glViewport _ _ _ _ => true
  | _ => false

/-- Calls into OpenGL proper (the `gl*` entry points). -/
def Call.isGL : Call → Bool
  | .glfwInit | .glfwWindowHint _ _ | .glfwCreateWindow _ _ _ | .glfwTerminate
  | .glfwMakeContextCurrent _ | .glfwSetFramebufferSizeCallback _ | .gladLoadGLLoader
  | .glfwWindowShouldClose _ | .glfwGetKey _ _ | .glfwSetWindowShouldClose _ _
  | .glfwSwapBuffers _ | .glfwPollEvents => false
  | _ => true

def Call.isInfoLogQuery : Call → Bool
  | .glGetShaderInfoLog _ _ | .glGetProgramInfoLog _ _ => true
  | _ => false

def Call.isCreateShader : Call → Bool
  | .glCreateShader _ _ => true
  | _ => false

def Call.isDraw : Call → Bool
  | .glDrawElements _ _ _ _ => true
  | _ => false

/-- The call takes `h` as a shader object. -/
def Call.usesShader (h : Nat) : Call → Bool
  | .glShaderSource s _ _ | .glCompileShader s | .glGetShaderiv s _ | .glGetShaderInfoLog s _
  | .glAttachShader _ s | .glDeleteShader s => s == h
  | _ => false

/-- The call takes `h` as a program object. -/
def Call.usesProgram (h : Nat) : Call → Bool
  | .glAttachShader p _ | .glLinkProgram p | .glGetProgramiv p _ | .glGetProgramInfoLog p _
  | .glUseProgram p | .glDeleteProgram p => p == h
  | _ => false

/-- The call takes `h` as a vertex array object. -/
def Call.usesVertexArray (h : Nat) : Call → Bool
  | .glBindVertexArray a | .glDeleteVertexArrays _ a => a == h
  | _ => false

/-- The call takes `h` as a buffer object. -/
def Call.usesBuffer (h : Nat) : Call → Bool
  | .glBindBuffer _ b | .glDeleteBuffers _ b => b == h
  | _ => false

/-- The call sets the source of shader `h`. -/
def Call.setsSource (h : Nat) : Call → Bool
  | .glShaderSource s _ _ => s == h
  | _ => false

/-- The call compiles shader `h`. -/
def Call.compiles (h : Nat) : Call → Bool
  | .glCompileShader s => s == h
  | _ => false

/-- The call attaches shader `h` to a program. -/
def Call.attaches (h : Nat) : Call → Bool
  | .glAttachShader _ s => s == h
  | _ => false

/-- The call deletes shader `h`. -/
def Call.deletesShader (h : Nat) : Call → Bool
  | .glDeleteShader s => s == h
  | _ => false

def Call.isLink : Call → Bool
  | .glLinkProgram _ => true
  | _ => false

/-- The query of the loop guard. -/
def Call.isGuard : Call → Bool
  | .glfwWindowShouldClose _ => true
  | _ => false

/-- The call of the resize callback. -/
def Call.isViewport : Call → Bool
  | .glViewport _ _ _ _ => true
  | _ => false

/-- The link of a program and the queries of its link status and log. -/
def Call.isLinkStage : Call → Bool
  | .glLinkProgram _ | .glGetProgramiv _ _ | .glGetProgramInfoLog _ _ => true
  | _ => false

/-- No call satisfying `p` occurs later in the trace than a call satisfying `q`. -/
def noneAfter (p q : Call → Bool) : List Call → Bool
  | [] => true
  | c :: cs => (!q c || cs.all (fun d => !p d)) && noneAfter p q cs

/-- Calls that create one of the four long-lived objects of `main`. -/
def Call.createsHandle : Call → Bool
  | .glCreateProgram _ | .glGenVertexArrays _ _ | .glGenBuffers _ _ => true
  | _ => false

/-- The call deletes program `h`. -/
def Call.deletesProgram (h : Nat) : Call → Bool
  | .glDeleteProgram p => p == h
  | _ => false

/-- The call deletes vertex array `h`. -/
def Call.deletesVertexArray (h : Nat) : Call → Bool
  | .glDeleteVertexArrays _ a => a == h
  | _ => false

/-- The call deletes buffer `h`. -/
def Call.deletesBuffer (h : Nat) : Call → Bool
  | .glDeleteBuffers _ b => b == h
  | _ => false

def Call.isTerminate : Call → Bool
  | .glfwTerminate => true
  | _ => false

/-- The calls `prepareShader` and its callees make. -/
def Call.isShaderStage : Call → Bool
  | .glCreateShader _ _ | .glShaderSource _ _ _ | .glCompileShader _ | .glGetShaderiv _ _
  | .glGetShaderInfoLog _ _ | .glAttachShader _ _ | .glLinkProgram _ | .glGetProgramiv _ _
  | .glGetProgramInfoLog _ _ | .glDeleteShader _ => true
  | _ => false

/-! ## The vertex-specification state of OpenGL -/

/-- What `glVertexAttribPointer` records for one attribute. -/
structure AttribPointer where
  buffer : Nat
  size : Nat
  type : GLconst
  normalized : Bool
  stride : Nat
  offset : Nat
  deriving DecidableEq, Repr

/-- What one `glDrawElements` call draws with. -/
structure DrawRecord where
  program : Nat
  vertexArray : Nat
  indexBuffer : Nat
  mode : GLconst
  count : Nat
  type : GLconst
  offset : Nat
  inBounds : Bool
  deriving DecidableEq, Repr

/-- Modelled from the spec: the OpenGL library is not part of the source, so the part
of its state the vertex set-up touches is modelled here, with the element array
buffer binding and the vertex attribute configuration stored per vertex array
object, and the array buffer binding and the vertex array binding stored in the
context.  Object deletion is not modelled. -/
structure GLState where
  vertexArray : Nat
  arrayBuffer : Nat
  elementBuffer : Nat → Nat
  attribEnabled : Nat → Nat → Bool
  attribPointer : Nat → Nat → Option AttribPointer
  bufferSize : Nat → Nat
  bufferData : Nat → Option BufferData
  program : Nat
  draws : List DrawRecord

/-- The buffer a `glBufferData` target refers to. -/
def GLState.bound (s : GLState) (target : GLconst) : Nat :=
  if target = .GL_ARRAY_BUFFER then s.arrayBuffer
  else if target = .GL_ELEMENT_ARRAY_BUFFER then s.elementBuffer s.vertexArray
  else 0

/-- The indices a draw of `count` unsigned indices at byte `offset` consumes. -/
def GLState.fetched (s : GLState) (count offset : Nat) : List Nat :=
  match s.bufferData (s.elementBuffer s.vertexArray) with
  | some (.uints xs) => (xs.drop (offset / sizeofUInt)).take count
  | _ => []

/-- The draw reads its `count` indices inside the index buffer, and for every
index it consumes the fetch of attribute 0 lies inside the attribute's buffer. -/
def GLState.drawInBounds (s : GLState) (count offset : Nat) : Bool :=
  decide (offset + count * sizeofUInt ≤ s.bufferSize (s.elementBuffer s.vertexArray)) &&
  decide ((s.fetched count offset).length = count) &&
  match s.attribPointer s.vertexArray 0 with
  | some a =>
    (s.fetched count offset).all fun i =>
      decide (a.offset + a.stride * i + a.size * sizeofFloat ≤ s.bufferSize a.buffer)
  | none => false

/-- Modelled from the spec: the effect of one call on the vertex-specification
state; calls that do not touch it leave it unchanged. -/
def glStep (s : GLState) : Call → GLState
  | .glBindVertexArray a => { s with vertexArray := a }
  | .glBindBuffer target b =>
    if target = .GL_ARRAY_BUFFER then { s with arrayBuffer := b }
    else if target = .GL_ELEMENT_ARRAY_BUFFER then
      { s with elementBuffer := Function.update s.elementBuffer s.vertexArray b }
    else s
  | .glBufferData target size data _ =>
    if s.bound target = 0 then s
    else
      { s with bufferSize := Function.update s.bufferSize (s.bound target) size,
               bufferData := Function.update s.bufferData (s.bound target) (some data) }
  | .glVertexAttribPointer index size type normalized stride pointer =>
    let a : AttribPointer :=
      { buffer := s.arrayBuffer, size := size, type := type, normalized := normalized,
        stride := stride, offset := pointer }
    let row := Function.update (s.attribPointer s.vertexArray) index (some a)
    { s with attribPointer := Function.update s.attribPointer s.vertexArray row }
  | .glEnableVertexAttribArray index =>
    let row := Function.update (s.attribEnabled s.vertexArray) index true
    { s with attribEnabled := Function.update s.attribEnabled s.vertexArray row }
  | .glUseProgram p => { s with program := p }
  | .glDrawElements mode count type offset =>
    let d : DrawRecord :=
      { program := s.program, vertexArray := s.vertexArray,
        indexBuffer := s.elementBuffer s.vertexArray, mode := mode, count := count,
        type := type, offset := offset, inBounds := s.drawInBounds count offset }
    { s with draws := s.draws ++ [d] }
  | _ => s

/-- The state after a sequence of calls. -/
def glRun (s : GLState) (t : List Call) : GLState :=
  t.foldl glStep s

/-- The vertex-specification state after the calls of `prepareVertex`. -/
def afterPrepareVertex (VAO VBO EBO : Nat) (s : GLState) : GLState :=
  glRun s (prepareVertex VAO VBO EBO World.start).trace

/-- The record of a draw of `drawTriangle` issued in state `s`. -/
def drawOf (s : GLState) (shaderProgram VAO : Nat) : DrawRecord :=
  { program := shaderProgram, vertexArray := VAO, indexBuffer := s.elementBuffer VAO,
    mode := .GL_TRIANGLES, count := 6, type := .GL_UNSIGNED_INT, offset := 0,
    inBounds := GLState.drawInBounds { s with vertexArray := VAO } 6 0 }


/-! ## Geometry of the uploaded data -/

/-- The environment that differs from `env` only in the compile and link statuses
and the info logs. -/
def withStatuses (env : Env) (cs ls : Nat → Int) (sl pl : Nat → Nat → String) : Env :=
  { env with compileStatus := cs, linkStatus := ls, shaderInfoLog := sl, programInfoLog := pl }


/-- An environment in which everything succeeds, escape is pressed in the
second frame and the framebuffer is never resized. -/
def okEnv : Env :=
  { createWindow := some 7
    initialShouldClose := false
    loadGL := 1
    createProgram := 3
    createShader := fun t => if t = .GL_VERTEX_SHADER then 1 else 2
    compileStatus := fun _ => 1
    linkStatus := fun _ => 1
    shaderInfoLog := fun _ _ => ""
    programInfoLog := fun _ _ => ""
    genVertexArray := 1
    genBuffer := fun k => k + 1
    escapeKey := fun k => if k = 1 then .GLFW_PRESS else .GLFW_RELEASE
    pollEvents := fun _ flag => flag
    resizes := fun _ => [] }

/-- As `okEnv`, but the first poll reports a resize of the framebuffer to 640 x 480. -/
def resizeEnv : Env :=
  { okEnv with resizes := fun k => if k = 0 then [(640, 480)] else [] }

/-- As `okEnv`, but window creation fails. -/
def noWindowEnv : Env :=
  { okEnv with createWindow := none }

/-- As `okEnv`, but the loader fails. -/
def noLoaderEnv : Env :=
  { okEnv with loadGL := 0 }

/-- As `okEnv`, but both compilations and the link fail. -/
def failEnv : Env :=
  withStatuses okEnv (fun _ => 0) (fun _ => 0) (fun _ _ => "E") (fun _ _ => "L")

/-- An empty vertex-specification state. -/
def GLState.start : GLState :=
  { vertexArray := 0, arrayBuffer := 0, elementBuffer := fun _ => 0,
    attribEnabled := fun _ _ => false, attribPointer := fun _ _ => none,
    bufferSize := fun _ => 0, bufferData := fun _ => none, program := 0, draws := [] }

/-! ## Lemmas on the embedding -/

theorem prepareShader_eq (env : Env) (shaderProgram : Nat) (w : World) :
    prepareShader env shaderProgram w =
      { w with trace := w.trace ++ prepareShaderCalls env shaderProgram,
               stdout := w.stdout ++ prepareShaderOutput env shaderProgram } := by
  unfold prepareShader prepareVertexShader prepareFragmentShader prepareShaderCalls
    prepareShaderOutput vertexStageCalls fragmentStageCalls
  by_cases h1 : env.compileStatus (env.createShader .GL_VERTEX_SHADER) = 0 <;>
  by_cases h2 : env.compileStatus (env.createShader .GL_FRAGMENT_SHADER) = 0 <;>
  by_cases h3 : env.linkStatus shaderProgram = 0 <;>
  simp [h1, h2, h3, emit, print, LOG_LENGTH, String.append_assoc]

theorem prepareVertex_eq (VAO VBO EBO : Nat) (w : World) :
    prepareVertex VAO VBO EBO w =
      { w with trace := w.trace ++ prepareVertexCalls VAO VBO EBO } := by
  simp [prepareVertex, prepareVertexCalls, emit, vertices, indices, sizeofFloat, sizeofUInt]

theorem drawTriangle_eq (shaderProgram VAO : Nat) (w : World) :
    drawTriangle shaderProgram VAO w =
      { w with trace := w.trace ++ drawTriangleCalls shaderProgram VAO } := by
  simp [drawTriangle, drawTriangleCalls, emit]

theorem processInput_eq (env : Env) (pWindow : Nat) (w : World) :
    processInput env pWindow w =
      { w with trace := w.trace ++ processInputCalls env pWindow w.polls,
               shouldClose := decide (env.escapeKey w.polls = .GLFW_PRESS) || w.shouldClose } := by
  unfold processInput processInputCalls glfwGetKey glfwSetWindowShouldClose
  by_cases h : env.escapeKey w.polls = .GLFW_PRESS <;> simp [h, emit]

theorem callbacks_eq (pWindow : Nat) :
    ∀ (sizes : List (Int × Int)) (w : World),
      sizes.foldl
          (fun w (size : Int × Int) => framebuffer_size_callback pWindow size.1 size.2 w) w =
        { w with trace := w.trace ++ sizes.map fun size => .glViewport 0 0 size.1 size.2 } := by
  intro sizes
  induction sizes with
  | nil => intro w; simp
  | cons size sizes ih =>
    intro w
    rw [List.foldl_cons, ih]
    simp [framebuffer_size_callback, emit]

theorem glfwPollEvents_eq (env : Env) (w : World) :
    glfwPollEvents env w =
      { w with trace := w.trace ++ .glfwPollEvents ::
                 (if w.resizeCallback.isSome then viewportCalls env w.polls else []),
               shouldClose := env.pollEvents w.polls w.shouldClose,
               polls := w.polls + 1 } := by
  unfold glfwPollEvents viewportCalls
  cases h : w.resizeCallback with
  | none => simp [emit, h]
  | some p => simp [emit, h, callbacks_eq]

theorem renderLoop_closes (env : Env) (pWindow shaderProgram VAO : Nat) :
    ∀ (n k fuel : Nat) (w : World), w.polls = k → w.shouldClose = flagAt env k →
      w.resizeCallback = some pWindow →
      (∀ j, j < n → flagAt env (k + j) = false) → flagAt env (k + n) = true → n < fuel →
      renderLoop env pWindow shaderProgram VAO fuel w =
        ({ w with trace := w.trace ++ (loopCalls env pWindow shaderProgram VAO k n ++
                    [.glfwWindowShouldClose pWindow]),
                  shouldClose := true, polls := k + n }, true) := by
  intro n
  induction n with
  | zero =>
    intro k fuel w hk hflag _ _ hlast hfuel
    obtain ⟨fuel, rfl⟩ : ∃ m, fuel = m + 1 := ⟨fuel - 1, by omega⟩
    have hc : w.shouldClose = true := by rw [hflag]; simpa using hlast
    simp [renderLoop, glfwWindowShouldClose, hc, emit, loopCalls, hk]
  | succ n ih =>
    intro k fuel w hk hflag hcb hrun hlast hfuel
    obtain ⟨fuel, rfl⟩ : ∃ m, fuel = m + 1 := ⟨fuel - 1, by omega⟩
    have hc : w.shouldClose = false := by
      rw [hflag]; simpa using hrun 0 (Nat.succ_pos n)
    have hstep := ih (k + 1) fuel
      (glfwPollEvents env (emit (.glfwSwapBuffers pWindow) (drawTriangle shaderProgram VAO
        (emit (.glClear .GL_COLOR_BUFFER_BIT)
          (emit (.glClearColor (binary32 0.2) (binary32 0.3) (binary32 0.3) (binary32 1.0))
          (processInput env pWindow (emit (.glfwWindowShouldClose pWindow) w)))))))
      (by simp [glfwPollEvents_eq, hcb, emit, drawTriangle_eq, processInput_eq, hk])
      (by simp [glfwPollEvents_eq, hcb, emit, drawTriangle_eq, processInput_eq, hk, hc, flagAt,
            ← hflag])
      (by simp [glfwPollEvents_eq, hcb, emit, drawTriangle_eq, processInput_eq])
      (by intro j hj
          have := hrun (j + 1) (by omega)
          rwa [show k + 1 + j = k + (j + 1) by omega])
      (by rwa [show k + 1 + n = k + (n + 1) by omega])
      (by omega)
    simp only [renderLoop, glfwWindowShouldClose, hc]
    rw [if_neg (by simp), hstep]
    simp [glfwPollEvents_eq, hcb, emit, drawTriangle_eq, processInput_eq, loopCalls, bodyCalls, hk,
      Nat.add_assoc, Nat.add_comm 1 n]

theorem renderLoop_running (env : Env) (pWindow shaderProgram VAO : Nat) :
    ∀ (fuel k : Nat) (w : World), w.polls = k → w.shouldClose = flagAt env k →
      w.resizeCallback = some pWindow →
      (∀ j, j < fuel → flagAt env (k + j) = false) →
      renderLoop env pWindow shaderProgram VAO fuel w =
        ({ w with trace := w.trace ++ loopCalls env pWindow shaderProgram VAO k fuel,
                  shouldClose := flagAt env (k + fuel), polls := k + fuel }, false) := by
  intro fuel
  induction fuel with
  | zero =>
    intro k w hk hflag _ _
    cases w
    simp_all [renderLoop, loopCalls]
  | succ fuel ih =>
    intro k w hk hflag hcb hrun
    have hc : w.shouldClose = false := by
      rw [hflag]; simpa using hrun 0 (Nat.succ_pos fuel)
    have hstep := ih (k + 1)
      (glfwPollEvents env (emit (.glfwSwapBuffers pWindow) (drawTriangle shaderProgram VAO
        (emit (.glClear .GL_COLOR_BUFFER_BIT)
          (emit (.glClearColor (binary32 0.2) (binary32 0.3) (binary32 0.3) (binary32 1.0))
          (processInput env pWindow (emit (.glfwWindowShouldClose pWindow) w)))))))
      (by simp [glfwPollEvents_eq, hcb, emit, drawTriangle_eq, processInput_eq, hk])
      (by simp [glfwPollEvents_eq, hcb, emit, drawTriangle_eq, processInput_eq, hk, hc, flagAt,
            ← hflag])
      (by simp [glfwPollEvents_eq, hcb, emit, drawTriangle_eq, processInput_eq])
      (by intro j hj
          have := hrun (j + 1) (by omega)
          rwa [show k + 1 + j = k + (j + 1) by omega])
    simp only [renderLoop, glfwWindowShouldClose, hc]
    rw [if_neg (by simp), hstep]
    simp [glfwPollEvents_eq, hcb, emit, drawTriangle_eq, processInput_eq, loopCalls, bodyCalls, hk,
      Nat.add_assoc, Nat.add_comm 1 fuel]

/-- The whole run on the success path, given that the guard lets exactly `n`
iterations start and the bound on guard evaluations is not reached. -/
theorem main_success (env : Env) (pWindow n fuel : Nat)
    (hwin : env.createWindow = some pWindow) (hload : env.loadGL ≠ 0)
    (hrun : runsFrames env n) (hfuel : n < fuel) :
    main env fuel =
      { world := { trace := successTrace env pWindow n,
                   stdout := prepareShaderOutput env env.createProgram,
                   shouldClose := true, polls := n, buffersGenerated := 2,
                   resizeCallback := some pWindow },
        exit := some 0 } := by
  have hloop := fun w h1 h2 h3 => renderLoop_closes env pWindow env.createProgram
    env.genVertexArray n 0 fuel w h1 h2 h3 (by simpa using hrun.1) (by simpa using hrun.2)
    hfuel
  simp only [main, glfwCreateWindow, glfwSetFramebufferSizeCallback, hwin, hload, if_false,
    glGenBuffers, prepareShader_eq, prepareVertex_eq]
  rw [hloop _ (by simp [emit, World.start]) (by simp [emit, World.start, flagAt])
    (by simp [emit, World.start])]
  simp [emit, World.start, successTrace, windowCalls, contextCalls, setupCalls, cleanupCalls,
    SCREEN_WIDTH, SCREEN_HEIGHT]

/-- The world in which the render loop starts on the success path. -/
theorem main_ok_eq (env : Env) (pWindow fuel : Nat)
    (hwin : env.createWindow = some pWindow) (hload : env.loadGL ≠ 0) :
    main env fuel =
      match renderLoop env pWindow env.createProgram env.genVertexArray fuel
          { trace := windowCalls ++ contextCalls pWindow ++ setupCalls env,
            stdout := prepareShaderOutput env env.createProgram,
            shouldClose := env.initialShouldClose, polls := 0, buffersGenerated := 2,
            resizeCallback := some pWindow } with
      | (w, false) => { world := w, exit := none }
      | (w, true) =>
        { world := { w with trace := w.trace ++ cleanupCalls env }, exit := some 0 } := by
  simp only [main, glfwCreateWindow, glfwSetFramebufferSizeCallback, hwin, hload, if_false,
    glGenBuffers, prepareShader_eq, prepareVertex_eq]
  have hw : ∀ w w2 : World, w = w2 →
      renderLoop env pWindow env.createProgram env.genVertexArray fuel w =
      renderLoop env pWindow env.createProgram env.genVertexArray fuel w2 := by
    intro w w2 h; rw [h]
  rw [hw _ { trace := windowCalls ++ contextCalls pWindow ++ setupCalls env,
             stdout := prepareShaderOutput env env.createProgram,
             shouldClose := env.initialShouldClose, polls := 0, buffersGenerated := 2,
             resizeCallback := some pWindow }
        (by simp [emit, World.start, windowCalls, contextCalls, setupCalls, SCREEN_WIDTH,
              SCREEN_HEIGHT])]
  rcases renderLoop env pWindow env.createProgram env.genVertexArray fuel _ with ⟨w, b⟩
  cases b <;> simp [emit, cleanupCalls, World.start]

theorem main_ok_exit (env : Env) (pWindow fuel : Nat)
    (hwin : env.createWindow = some pWindow) (hload : env.loadGL ≠ 0) :
    (main env fuel).exit = some 0 ∨ (main env fuel).exit = none := by
  rw [main_ok_eq env pWindow fuel hwin hload]
  rcases renderLoop env pWindow env.createProgram env.genVertexArray fuel _ with ⟨w, b⟩
  cases b <;> simp

theorem main_no_window (env : Env) (fuel : Nat) (hwin : env.createWindow = none) :
    main env fuel =
      { world := { trace := windowCalls ++ [.glfwTerminate],
                   stdout := "Failed to create GLFW window\n",
                   shouldClose := env.initialShouldClose, polls := 0, buffersGenerated := 0,
                   resizeCallback := none },
        exit := some (-1) } := by
  simp [main, glfwCreateWindow, hwin, emit, print, World.start, windowCalls, SCREEN_WIDTH,
    SCREEN_HEIGHT]

theorem main_no_loader (env : Env) (pWindow fuel : Nat)
    (hwin : env.createWindow = some pWindow) (hload : env.loadGL = 0) :
    main env fuel =
      { world := { trace := windowCalls ++ contextCalls pWindow ++ [.glfwTerminate],
                   stdout := "Failed to initialize GLAD\n",
                   shouldClose := env.initialShouldClose, polls := 0, buffersGenerated := 0,
                   resizeCallback := some pWindow },
        exit := some (-1) } := by
  simp [main, glfwCreateWindow, glfwSetFramebufferSizeCallback, hwin, hload, emit, print,
    World.start, windowCalls, contextCalls, SCREEN_WIDTH, SCREEN_HEIGHT]

theorem prepareShaderCalls_stage (env : Env) (shaderProgram : Nat) :
    ∀ c ∈ prepareShaderCalls env shaderProgram, c.isShaderStage = true := by
  unfold prepareShaderCalls vertexStageCalls fragmentStageCalls
  by_cases h1 : env.compileStatus (env.createShader .GL_VERTEX_SHADER) = 0 <;>
  by_cases h2 : env.compileStatus (env.createShader .GL_FRAGMENT_SHADER) = 0 <;>
  by_cases h3 : env.linkStatus shaderProgram = 0 <;>
  simp [h1, h2, h3, Call.isShaderStage]

theorem viewportCalls_isViewport (env : Env) (k : Nat) :
    ∀ c ∈ viewportCalls env k, c.isViewport = true := by
  intro c hc
  simp only [viewportCalls, List.mem_map] at hc
  obtain ⟨size, -, rfl⟩ := hc
  rfl

theorem loopCalls_isLoopCall (env : Env) (pWindow shaderProgram VAO : Nat) :
    ∀ (n k : Nat), ∀ c ∈ loopCalls env pWindow shaderProgram VAO k n, c.isLoopCall = true := by
  intro n
  induction n with
  | zero => intro k c hc; simp [loopCalls] at hc
  | succ n ih =>
    intro k c hc
    simp only [loopCalls, List.mem_cons, List.mem_append] at hc
    rcases hc with (rfl | hc) | hc
    · rfl
    · rw [bodyCalls, List.mem_append] at hc
      rcases hc with hc | hc
      · revert c
        unfold processInputCalls drawTriangleCalls
        by_cases h : env.escapeKey k = .GLFW_PRESS <;> simp [h, Call.isLoopCall]
      · have := viewportCalls_isViewport env k c hc
        cases c <;> simp_all [Call.isViewport, Call.isLoopCall]
    · exact ih (k + 1) c hc

theorem loopCalls_succ_last (env : Env) (pWindow shaderProgram VAO : Nat) :
    ∀ (n k : Nat), loopCalls env pWindow shaderProgram VAO k (n + 1) =
      loopCalls env pWindow shaderProgram VAO k n ++
        (.glfwWindowShouldClose pWindow :: bodyCalls env pWindow shaderProgram VAO (k + n)) := by
  intro n
  induction n with
  | zero => intro k; simp [loopCalls]
  | succ n ih =>
    intro k
    rw [loopCalls, ih (k + 1)]
    simp [loopCalls, Nat.add_assoc, Nat.add_comm 1 n]

theorem flagAt_congr (env env2 : Env) (h0 : env2.initialShouldClose = env.initialShouldClose)
    (hk : env2.escapeKey = env.escapeKey) (hp : env2.pollEvents = env.pollEvents) :
    ∀ k, flagAt env2 k = flagAt env k := by
  intro k
  induction k with
  | zero => simp [flagAt, h0]
  | succ k ih => simp [flagAt, hk, hp, ih]

theorem renderLoop_congr (env env2 : Env) (pWindow shaderProgram VAO : Nat)
    (hk : env2.escapeKey = env.escapeKey) (hp : env2.pollEvents = env.pollEvents)
    (hr : env2.resizes = env.resizes) :
    ∀ (fuel : Nat) (w : World),
      renderLoop env2 pWindow shaderProgram VAO fuel w =
        renderLoop env pWindow shaderProgram VAO fuel w := by
  intro fuel
  induction fuel with
  | zero => intro w; rfl
  | succ fuel ih =>
    intro w
    simp only [renderLoop, processInput, glfwGetKey, glfwPollEvents, hk, hp, hr, ih]

/-- The loop appends to the trace, leaves standard output and the buffer counter
alone, and what it appends depends only on the flag and the poll count. -/
theorem renderLoop_frame (env : Env) (pWindow shaderProgram VAO : Nat) :
    ∀ (fuel : Nat) (w w2 : World), w.shouldClose = w2.shouldClose → w.polls = w2.polls →
      w.resizeCallback = some pWindow → w2.resizeCallback = some pWindow →
      ∃ t, (renderLoop env pWindow shaderProgram VAO fuel w).1.trace = w.trace ++ t ∧
        (renderLoop env pWindow shaderProgram VAO fuel w2).1.trace = w2.trace ++ t ∧
        (0 < fuel → t.head? = some (.glfwWindowShouldClose pWindow)) ∧
        (renderLoop env pWindow shaderProgram VAO fuel w).1.stdout = w.stdout ∧
        (renderLoop env pWindow shaderProgram VAO fuel w2).1.stdout = w2.stdout ∧
        (renderLoop env pWindow shaderProgram VAO fuel w).1.buffersGenerated =
          w.buffersGenerated ∧
        (renderLoop env pWindow shaderProgram VAO fuel w2).1.buffersGenerated =
          w2.buffersGenerated ∧
        (renderLoop env pWindow shaderProgram VAO fuel w).1.shouldClose =
          (renderLoop env pWindow shaderProgram VAO fuel w2).1.shouldClose ∧
        (renderLoop env pWindow shaderProgram VAO fuel w).1.polls =
          (renderLoop env pWindow shaderProgram VAO fuel w2).1.polls ∧
        (renderLoop env pWindow shaderProgram VAO fuel w).2 =
          (renderLoop env pWindow shaderProgram VAO fuel w2).2 := by
  intro fuel
  induction fuel with
  | zero =>
    intro w w2 hc hp _ _
    exact ⟨[], by simp [renderLoop], by simp [renderLoop], by simp, rfl, rfl, rfl, rfl, hc, hp, rfl⟩
  | succ fuel ih =>
    intro w w2 hc hp hcb hcb2
    cases hflag : w.shouldClose with
    | true =>
      have hflag2 : w2.shouldClose = true := by rw [← hc, hflag]
      refine ⟨[.glfwWindowShouldClose pWindow], ?_⟩
      simp [renderLoop, glfwWindowShouldClose, hflag, hflag2, emit, hp]
    | false =>
      have hflag2 : w2.shouldClose = false := by rw [← hc, hflag]
      obtain ⟨t, h1, h2, -, h3, h4, h5, h6, h7, h8, h9⟩ := ih
        (glfwPollEvents env (emit (.glfwSwapBuffers pWindow) (drawTriangle shaderProgram VAO
          (emit (.glClear .GL_COLOR_BUFFER_BIT)
          (emit (.glClearColor (binary32 0.2) (binary32 0.3) (binary32 0.3) (binary32 1.0))
            (processInput env pWindow (emit (.glfwWindowShouldClose pWindow) w)))))))
        (glfwPollEvents env (emit (.glfwSwapBuffers pWindow) (drawTriangle shaderProgram VAO
          (emit (.glClear .GL_COLOR_BUFFER_BIT)
          (emit (.glClearColor (binary32 0.2) (binary32 0.3) (binary32 0.3) (binary32 1.0))
            (processInput env pWindow (emit (.glfwWindowShouldClose pWindow) w2)))))))
        (by simp [glfwPollEvents_eq, hcb, hcb2, emit, drawTriangle_eq, processInput_eq, hp, hc])
        (by simp [glfwPollEvents_eq, hcb, hcb2, emit, drawTriangle_eq, processInput_eq, hp])
        (by simp [glfwPollEvents_eq, hcb, emit, drawTriangle_eq, processInput_eq])
        (by simp [glfwPollEvents_eq, hcb2, emit, drawTriangle_eq, processInput_eq])
      refine ⟨.glfwWindowShouldClose pWindow :: bodyCalls env pWindow shaderProgram VAO w.polls
        ++ t, ?_⟩
      simp only [renderLoop, glfwWindowShouldClose, hflag, hflag2]
      rw [if_neg (by simp), if_neg (by simp)]
      refine ⟨?_, ?_, by simp, ?_, ?_, ?_, ?_, h7, h8, h9⟩
      · rw [h1]
        simp [glfwPollEvents_eq, hcb, hcb2, emit, drawTriangle_eq, processInput_eq, bodyCalls]
      · rw [h2]
        simp [glfwPollEvents_eq, hcb, hcb2, emit, drawTriangle_eq, processInput_eq, bodyCalls, hp]
      · rw [h3]; simp [glfwPollEvents_eq, hcb, hcb2, emit, drawTriangle_eq, processInput_eq]
      · rw [h4]; simp [glfwPollEvents_eq, hcb, hcb2, emit, drawTriangle_eq, processInput_eq]
      · rw [h5]; simp [glfwPollEvents_eq, hcb, hcb2, emit, drawTriangle_eq, processInput_eq]
      · rw [h6]; simp [glfwPollEvents_eq, hcb, hcb2, emit, drawTriangle_eq, processInput_eq]

theorem prepareShaderCalls_filter (env : Env) (shaderProgram : Nat) :
    (prepareShaderCalls env shaderProgram).filter (fun c => !c.isInfoLogQuery) =
      [ .glCreateShader .GL_VERTEX_SHADER (env.createShader .GL_VERTEX_SHADER),
        .glShaderSource (env.createShader .GL_VERTEX_SHADER) 1 vertexShaderSource,
        .glCompileShader (env.createShader .GL_VERTEX_SHADER),
        .glGetShaderiv (env.createShader .GL_VERTEX_SHADER) .GL_COMPILE_STATUS,
        .glAttachShader shaderProgram (env.createShader .GL_VERTEX_SHADER),
        .glCreateShader .GL_FRAGMENT_SHADER (env.createShader .GL_FRAGMENT_SHADER),
        .glShaderSource (env.createShader .GL_FRAGMENT_SHADER) 1 fragmentShaderSource,
        .glCompileShader (env.createShader .GL_FRAGMENT_SHADER),
        .glGetShaderiv (env.createShader .GL_FRAGMENT_SHADER) .GL_COMPILE_STATUS,
        .glAttachShader shaderProgram (env.createShader .GL_FRAGMENT_SHADER),
        .glLinkProgram shaderProgram, .glGetProgramiv shaderProgram .GL_LINK_STATUS,
        .glDeleteShader (env.createShader .GL_VERTEX_SHADER),
        .glDeleteShader (env.createShader .GL_FRAGMENT_SHADER) ] := by
  unfold prepareShaderCalls vertexStageCalls fragmentStageCalls
  by_cases h1 : env.compileStatus (env.createShader .GL_VERTEX_SHADER) = 0 <;>
  by_cases h2 : env.compileStatus (env.createShader .GL_FRAGMENT_SHADER) = 0 <;>
  by_cases h3 : env.linkStatus shaderProgram = 0 <;>
  simp [h1, h2, h3, Call.isInfoLogQuery, List.filter_cons]


theorem noneAfter_of_no_q (p q : Call → Bool) :
    ∀ l : List Call, (∀ c ∈ l, q c = false) → noneAfter p q l = true := by
  intro l
  induction l with
  | nil => intro _; rfl
  | cons c cs ih =>
    intro h
    simp [noneAfter, h c (List.mem_cons_self _ _),
      ih (fun d hd => h d (List.mem_cons_of_mem _ hd))]

theorem noneAfter_of_no_p (p q : Call → Bool) :
    ∀ l : List Call, (∀ c ∈ l, p c = false) → noneAfter p q l = true := by
  intro l
  induction l with
  | nil => intro _; rfl
  | cons c cs ih =>
    intro h
    have hall : cs.all (fun d => !p d) = true := by
      simp only [List.all_eq_true]
      intro d hd
      simp [h d (List.mem_cons_of_mem _ hd)]
    simp [noneAfter, hall, ih (fun d hd => h d (List.mem_cons_of_mem _ hd))]

theorem noneAfter_append_left (p q : Call → Bool) (b : List Call) :
    ∀ a : List Call, (∀ c ∈ a, q c = false) → noneAfter p q (a ++ b) = noneAfter p q b := by
  intro a
  induction a with
  | nil => intro _; rfl
  | cons c cs ih =>
    intro h
    simp [noneAfter, h c (List.mem_cons_self _ _),
      ih (fun d hd => h d (List.mem_cons_of_mem _ hd))]

theorem noneAfter_append_right (p q : Call → Bool) (b : List Call)
    (hb : ∀ c ∈ b, p c = false) :
    ∀ a : List Call, noneAfter p q (a ++ b) = noneAfter p q a := by
  intro a
  induction a with
  | nil => simpa using noneAfter_of_no_p p q b hb
  | cons c cs ih =>
    simp only [List.cons_append, noneAfter, ih, List.all_append]
    have : b.all (fun d => !p d) = true := by
      simp only [List.all_eq_true]
      intro d hd
      simp [hb d hd]
    simp [this, ih]

theorem renderLoop_true (env : Env) (pWindow shaderProgram VAO : Nat) :
    ∀ (fuel k : Nat) (w : World), w.polls = k → w.shouldClose = flagAt env k →
      w.resizeCallback = some pWindow →
      (renderLoop env pWindow shaderProgram VAO fuel w).2 = true →
      ∃ n, n < fuel ∧ (∀ j, j < n → flagAt env (k + j) = false) ∧
        flagAt env (k + n) = true := by
  intro fuel
  induction fuel with
  | zero => intro k w _ _ _ h; simp [renderLoop] at h
  | succ fuel ih =>
    intro k w hk hflag hcb h
    cases hc : w.shouldClose with
    | true =>
      exact ⟨0, Nat.succ_pos _, fun j hj => absurd hj (by omega), by simpa [← hflag] using hc⟩
    | false =>
      simp only [renderLoop, glfwWindowShouldClose, hc] at h
      rw [if_neg (by simp)] at h
      obtain ⟨n, hn, hrun, hlast⟩ := ih (k + 1) _
        (by simp [glfwPollEvents_eq, hcb, emit, drawTriangle_eq, processInput_eq, hk])
        (by simp [glfwPollEvents_eq, hcb, emit, drawTriangle_eq, processInput_eq, hk, hc, flagAt,
              ← hflag])
        (by simp [glfwPollEvents_eq, hcb, emit, drawTriangle_eq, processInput_eq]) h
      refine ⟨n + 1, by omega, ?_, ?_⟩
      · intro j hj
        cases j with
        | zero => simpa [← hflag] using hc
        | succ j =>
          have := hrun j (by omega)
          rwa [show k + 1 + j = k + (j + 1) by omega] at this
      · rwa [show k + 1 + n = k + (n + 1) by omega] at hlast

theorem main_exit_zero (env : Env) (fuel : Nat) (h : (main env fuel).exit = some 0) :
    ∃ pWindow n, env.createWindow = some pWindow ∧ env.loadGL ≠ 0 ∧ runsFrames env n ∧
      n < fuel := by
  cases hwin : env.createWindow with
  | none => rw [main_no_window env fuel hwin] at h; simp at h
  | some pWindow =>
    by_cases hload : env.loadGL = 0
    · rw [main_no_loader env pWindow fuel hwin hload] at h; simp at h
    · rw [main_ok_eq env pWindow fuel hwin hload] at h
      rcases hr : renderLoop env pWindow env.createProgram env.genVertexArray fuel
        { trace := windowCalls ++ contextCalls pWindow ++ setupCalls env,
          stdout := prepareShaderOutput env env.createProgram,
          shouldClose := env.initialShouldClose, polls := 0, buffersGenerated := 2,
            resizeCallback := some pWindow }
        with ⟨w, b⟩
      rw [hr] at h
      cases b with
      | false => simp at h
      | true =>
        obtain ⟨n, hn, hrun, hlast⟩ := renderLoop_true env pWindow env.createProgram
          env.genVertexArray fuel 0
          { trace := windowCalls ++ contextCalls pWindow ++ setupCalls env,
            stdout := prepareShaderOutput env env.createProgram,
            shouldClose := env.initialShouldClose, polls := 0, buffersGenerated := 2,
            resizeCallback := some pWindow }
          rfl (by simp [flagAt]) rfl (by rw [hr])
        exact ⟨pWindow, n, rfl, hload, ⟨by simpa using hrun, by simpa using hlast⟩, hn⟩

/-- Before the cleanup no call deletes one of the long-lived objects. -/
theorem beforeCleanup_no_delete (env : Env) (pWindow n : Nat) :
    ∀ c ∈ windowCalls ++ contextCalls pWindow ++ setupCalls env ++
        loopCalls env pWindow env.createProgram env.genVertexArray 0 n ++
        [.glfwWindowShouldClose pWindow],
      c.deletesObject = false ∧ c.isTerminate = false := by
  intro c hc
  simp only [List.mem_append, setupCalls] at hc
  rcases hc with (((hc | hc) | ((((hc | hc) | hc) | hc) | hc)) | hc) | hc
  · revert c; simp [windowCalls, Call.deletesObject, Call.isTerminate]
  · revert c; simp [contextCalls, Call.deletesObject, Call.isTerminate]
  · revert c; simp [Call.deletesObject, Call.isTerminate]
  · have := prepareShaderCalls_stage env env.createProgram c hc
    cases c <;> simp_all [Call.isShaderStage, Call.deletesObject, Call.isTerminate]
  · revert c; simp [Call.deletesObject, Call.isTerminate]
  · revert c; simp [prepareVertexCalls, Call.deletesObject, Call.isTerminate]
  · revert c; simp [Call.deletesObject, Call.isTerminate]
  · have := loopCalls_isLoopCall env pWindow env.createProgram env.genVertexArray n 0 c hc
    cases c <;> simp_all [Call.isLoopCall, Call.deletesObject, Call.isTerminate]
  · revert c; simp [Call.deletesObject, Call.isTerminate]

/-- From `prepareVertex` on no call creates one of the long-lived objects. -/
theorem afterCreation_no_create (env : Env) (pWindow n : Nat) :
    ∀ c ∈ prepareVertexCalls env.genVertexArray (env.genBuffer 0) (env.genBuffer 1) ++
        [.glPolygonMode .GL_FRONT_AND_BACK .GL_LINE] ++
        loopCalls env pWindow env.createProgram env.genVertexArray 0 n ++
        [.glfwWindowShouldClose pWindow] ++ cleanupCalls env,
      c.createsObject = false := by
  intro c hc
  simp only [List.mem_append] at hc
  rcases hc with (((hc | hc) | hc) | hc) | hc
  · revert c; simp [prepareVertexCalls, Call.createsObject]
  · revert c; simp [Call.createsObject]
  · have := loopCalls_isLoopCall env pWindow env.createProgram env.genVertexArray n 0 c hc
    cases c <;> simp_all [Call.isLoopCall, Call.createsObject]
  · revert c; simp [Call.createsObject]
  · revert c; simp [cleanupCalls, Call.createsObject]

/-- Up to the generation of the buffers no call is of a kind the loop makes. -/
theorem creation_no_loopCall (env : Env) (pWindow : Nat) :
    ∀ c ∈ windowCalls ++ contextCalls pWindow ++
        ([.glCreateProgram env.createProgram] ++ prepareShaderCalls env env.createProgram ++
          [ .glGenVertexArrays 1 env.genVertexArray, .glGenBuffers 1 (env.genBuffer 0),
            .glGenBuffers 1 (env.genBuffer 1) ]),
      c.isLoopCall = false := by
  intro c hc
  simp only [List.mem_append] at hc
  rcases hc with (hc | hc) | ((hc | hc) | hc)
  · revert c; simp [windowCalls, Call.isLoopCall]
  · revert c; simp [contextCalls, Call.isLoopCall]
  · revert c; simp [Call.isLoopCall]
  · have := prepareShaderCalls_stage env env.createProgram c hc
    cases c <;> simp_all [Call.isShaderStage, Call.isLoopCall]
  · revert c; simp [Call.isLoopCall]

theorem filter_nil_of (p : Call → Bool) (l : List Call) (h : ∀ c ∈ l, p c = false) :
    l.filter p = [] := by
  rw [List.filter_eq_nil_iff]
  intro c hc
  simp [h c hc]

theorem countP_zero_of (p : Call → Bool) (l : List Call) (h : ∀ c ∈ l, p c = false) :
    l.countP p = 0 := by
  rw [List.countP_eq_zero]
  intro c hc
  simp [h c hc]

theorem not_deletes_of (c : Call) (h : c.deletesObject = false) (x : Nat) :
    c.deletesProgram x = false ∧ c.deletesVertexArray x = false ∧
      c.deletesBuffer x = false := by
  cases c <;>
    simp_all [Call.deletesObject, Call.deletesProgram, Call.deletesVertexArray,
      Call.deletesBuffer]

theorem not_createsHandle_of (c : Call) (h : c.createsObject = false) :
    c.createsHandle = false := by
  cases c <;> simp_all [Call.createsObject, Call.createsHandle]

theorem successTrace_split (env : Env) (pWindow n : Nat) :
    successTrace env pWindow n =
      (windowCalls ++ contextCalls pWindow ++
        ([.glCreateProgram env.createProgram] ++ prepareShaderCalls env env.createProgram ++
          [ .glGenVertexArrays 1 env.genVertexArray, .glGenBuffers 1 (env.genBuffer 0),
            .glGenBuffers 1 (env.genBuffer 1) ])) ++
      (prepareVertexCalls env.genVertexArray (env.genBuffer 0) (env.genBuffer 1) ++
        [.glPolygonMode .GL_FRONT_AND_BACK .GL_LINE] ++
        loopCalls env pWindow env.createProgram env.genVertexArray 0 n ++
        [.glfwWindowShouldClose pWindow] ++ cleanupCalls env) := by
  simp [successTrace, setupCalls, List.append_assoc]


theorem afterPrepareVertex_eq (VAO VBO EBO : Nat) (s : GLState)
    (hVBO : VBO ≠ 0) (hEBO : EBO ≠ 0) :
    afterPrepareVertex VAO VBO EBO s =
      { s with
        vertexArray := 0
        arrayBuffer := 0
        elementBuffer := Function.update (Function.update s.elementBuffer VAO EBO) 0 0
        attribEnabled := Function.update s.attribEnabled VAO
          (Function.update (s.attribEnabled VAO) 0 true)
        attribPointer := Function.update s.attribPointer VAO
          (Function.update (s.attribPointer VAO) 0
            (some { buffer := VBO, size := 3, type := .GL_FLOAT, normalized := false,
                    stride := 12, offset := 0 }))
        bufferSize := Function.update (Function.update s.bufferSize VBO 48) EBO 24
        bufferData := Function.update (Function.update s.bufferData VBO (some (.floats vertices)))
          EBO (some (.uints indices)) } := by
  simp [afterPrepareVertex, prepareVertex_eq, World.start, prepareVertexCalls, glRun, glStep,
    GLState.bound, hVBO, hEBO]

theorem glRun_viewportCalls (env : Env) (k : Nat) (s : GLState) :
    glRun s (viewportCalls env k) = s := by
  unfold viewportCalls glRun
  induction env.resizes k with
  | nil => rfl
  | cons size sizes ih => simpa [List.foldl, glStep] using ih

theorem glRun_frame (env : Env) (pWindow shaderProgram VAO k : Nat) (s : GLState) :
    glRun s (.glfwWindowShouldClose pWindow :: bodyCalls env pWindow shaderProgram VAO k) =
      { s with program := shaderProgram, vertexArray := 0,
               draws := s.draws ++ [drawOf s shaderProgram VAO] } := by
  have happ : ∀ (a b : List Call), glRun s (a ++ b) = glRun (glRun s a) b := by
    intro a b; simp [glRun, List.foldl_append]
  unfold bodyCalls
  rw [← List.cons_append, happ, glRun_viewportCalls]
  unfold processInputCalls drawTriangleCalls
  by_cases h : env.escapeKey k = .GLFW_PRESS <;>
    simp [h, glRun, glStep, drawOf, GLState.drawInBounds, GLState.fetched]

theorem glRun_drawTriangle (shaderProgram VAO : Nat) (s : GLState) :
    glRun s (drawTriangleCalls shaderProgram VAO) =
      { s with program := shaderProgram, vertexArray := 0,
               draws := s.draws ++ [drawOf s shaderProgram VAO] } := by
  simp [drawTriangleCalls, glRun, glStep, drawOf, GLState.drawInBounds, GLState.fetched]

theorem glRun_loopCalls (env : Env) (pWindow shaderProgram VAO : Nat) :
    ∀ (n k : Nat) (s : GLState),
      glRun s (loopCalls env pWindow shaderProgram VAO k n) =
        { s with program := if n = 0 then s.program else shaderProgram,
                 vertexArray := if n = 0 then s.vertexArray else 0,
                 draws := s.draws ++ List.replicate n (drawOf s shaderProgram VAO) } := by
  intro n
  induction n with
  | zero => intro k s; simp [loopCalls, glRun]
  | succ n ih =>
    intro k s
    have happ : ∀ (a b : List Call), glRun s (a ++ b) = glRun (glRun s a) b := by
      intro a b; simp [glRun, List.foldl_append]
    rw [loopCalls, happ, ih, glRun_frame]
    by_cases hn : n = 0 <;>
      simp [hn, List.replicate_succ, drawOf, GLState.drawInBounds, GLState.fetched]


theorem viewportCalls_filter (env : Env) (k : Nat) :
    (viewportCalls env k).filter (fun c => !(c.isGuard || c.isViewport)) = [] := by
  apply filter_nil_of
  intro c hc
  simp [viewportCalls_isViewport env k c hc]

theorem loopCalls_filter (env : Env) (pWindow shaderProgram VAO : Nat) :
    ∀ (n k : Nat),
      (loopCalls env pWindow shaderProgram VAO k n).filter
          (fun c => !(c.isGuard || c.isViewport)) =
        claimedIterations env pWindow shaderProgram VAO k n := by
  intro n
  induction n with
  | zero => intro k; simp [loopCalls, claimedIterations]
  | succ n ih =>
    intro k
    simp only [loopCalls, claimedIterations, List.filter_append, List.filter_cons, ih,
      bodyCalls, viewportCalls_filter, processInputCalls, drawTriangleCalls]
    by_cases h : env.escapeKey k = .GLFW_PRESS <;>
      simp [h, Call.isGuard, Call.isViewport, List.filter_cons]

theorem setupCalls_filter (env : Env) :
    (setupCalls env).filter (fun c => !(c.isGuard || c.isViewport)) = setupCalls env := by
  rw [List.filter_eq_self]
  intro c hc
  simp only [setupCalls, List.mem_append] at hc
  rcases hc with (((hc | hc) | hc) | hc) | hc
  · revert c; simp [Call.isGuard, Call.isViewport]
  · have := prepareShaderCalls_stage env env.createProgram c hc
    cases c <;> simp_all [Call.isShaderStage, Call.isGuard, Call.isViewport]
  · revert c; simp [Call.isGuard, Call.isViewport]
  · revert c; simp [prepareVertexCalls, Call.isGuard, Call.isViewport]
  · revert c; simp [Call.isGuard, Call.isViewport]

/-- With the guard queries and the calls of the resize callback left out, the trace
of the success path is the trace as the specification words it. -/
theorem successTrace_filter (env : Env) (pWindow n : Nat) :
    (successTrace env pWindow n).filter (fun c => !(c.isGuard || c.isViewport)) =
      claimedTrace env pWindow n := by
  simp only [successTrace, claimedTrace, List.filter_append, loopCalls_filter,
    setupCalls_filter]
  simp [windowCalls, contextCalls, cleanupCalls, Call.isGuard, Call.isViewport,
    List.filter_cons]

/-- The trace as the specification words it has no guard query and no call of the
resize callback. -/
theorem claimedTrace_plain (env : Env) (pWindow n : Nat) :
    ∀ c ∈ claimedTrace env pWindow n, c.isGuard = false ∧ c.isViewport = false := by
  intro c hc
  rw [← successTrace_filter, List.mem_filter] at hc
  have := hc.2
  cases hg : c.isGuard <;> cases hv : c.isViewport <;> simp_all

theorem loopCalls_congr (env env2 : Env) (pWindow shaderProgram VAO : Nat)
    (hk : env2.escapeKey = env.escapeKey) (hr : env2.resizes = env.resizes) :
    ∀ (n k : Nat), loopCalls env2 pWindow shaderProgram VAO k n =
      loopCalls env pWindow shaderProgram VAO k n := by
  intro n
  induction n with
  | zero => intro k; rfl
  | succ n ih =>
    intro k
    simp only [loopCalls, bodyCalls, processInputCalls, viewportCalls, hk, hr, ih]

theorem loopCalls_draws (env : Env) (pWindow shaderProgram VAO : Nat) :
    ∀ (n k : Nat), (loopCalls env pWindow shaderProgram VAO k n).countP Call.isDraw = n := by
  intro n
  induction n with
  | zero => intro k; simp [loopCalls]
  | succ n ih =>
    intro k
    have hv : (viewportCalls env k).countP Call.isDraw = 0 := by
      apply countP_zero_of
      intro c hc
      have := viewportCalls_isViewport env k c hc
      cases c <;> simp_all [Call.isViewport, Call.isDraw]
    simp only [loopCalls, bodyCalls, List.countP_cons, List.countP_append, ih, hv,
      processInputCalls, drawTriangleCalls]
    by_cases h : env.escapeKey k = .GLFW_PRESS <;>
      simp [h, Call.isDraw, List.countP_cons] <;> omega

theorem setupCalls_draws (env : Env) : (setupCalls env).countP Call.isDraw = 0 := by
  apply countP_zero_of
  intro c hc
  simp only [setupCalls, List.mem_append] at hc
  rcases hc with (((hc | hc) | hc) | hc) | hc
  · revert c; simp [Call.isDraw]
  · have := prepareShaderCalls_stage env env.createProgram c hc
    cases c <;> simp_all [Call.isShaderStage, Call.isDraw]
  · revert c; simp [Call.isDraw]
  · revert c; simp [prepareVertexCalls, Call.isDraw]
  · revert c; simp [Call.isDraw]

theorem roundHalfEven_of (q : Rat) (z : Int) (h1 : (z : Rat) - 1 / 2 < q)
    (h2 : q < (z : Rat) + 1 / 2) : roundHalfEven q = z := by
  unfold roundHalfEven
  by_cases hq : (z : Rat) ≤ q
  · have hf : ⌊q⌋ = z := Int.floor_eq_iff.mpr ⟨hq, by linarith⟩
    rw [hf, if_pos (by linarith)]
  · have hf : ⌊q⌋ = z - 1 := Int.floor_eq_iff.mpr ⟨by push_cast; linarith, by push_cast; linarith⟩
    rw [hf, if_neg (by push_cast; linarith), if_pos (by push_cast; linarith)]
    ring

theorem binary32_one_fifth : binary32 0.2 = 13421773 / 67108864 := by
  have he : exponent2 300 |(0.2 : Rat)| = -3 := by
    rw [abs_of_pos (by norm_num)]
    rw [exponent2, if_pos (by norm_num), exponent2, if_pos (by norm_num), exponent2,
      if_pos (by norm_num), exponent2, if_neg (by norm_num), if_neg (by norm_num)]
    norm_num
  rw [binary32, if_neg (by norm_num), he,
    roundHalfEven_of _ 13421773 (by norm_num) (by norm_num)]
  norm_num

theorem binary32_three_tenths : binary32 0.3 = 5033165 / 16777216 := by
  have he : exponent2 300 |(0.3 : Rat)| = -2 := by
    rw [abs_of_pos (by norm_num)]
    rw [exponent2, if_pos (by norm_num), exponent2, if_pos (by norm_num), exponent2,
      if_neg (by norm_num), if_neg (by norm_num)]
    norm_num
  rw [binary32, if_neg (by norm_num), he,
    roundHalfEven_of _ 10066330 (by norm_num) (by norm_num)]
  norm_num

theorem binary32_one : binary32 1.0 = 1 := by
  have he : exponent2 300 |(1.0 : Rat)| = 0 := by
    rw [abs_of_pos (by norm_num)]
    rw [exponent2, if_neg (by norm_num), if_neg (by norm_num)]
  rw [binary32, if_neg (by norm_num), he,
    roundHalfEven_of _ 8388608 (by norm_num) (by norm_num)]
  norm_num

theorem binary32_half : binary32 0.5 = 0.5 ∧ binary32 (-0.5) = -0.5 ∧ binary32 0.0 = 0.0 := by
  have he : exponent2 300 |(0.5 : Rat)| = -1 := by
    rw [abs_of_pos (by norm_num)]
    rw [exponent2, if_pos (by norm_num), exponent2, if_neg (by norm_num),
      if_neg (by norm_num)]
    norm_num
  have he2 : exponent2 300 |(-0.5 : Rat)| = -1 := by
    rw [abs_neg]; exact he
  refine ⟨?_, ?_, ?_⟩
  · rw [binary32, if_neg (by norm_num), he,
      roundHalfEven_of _ 8388608 (by norm_num) (by norm_num)]
    norm_num
  · rw [binary32, if_neg (by norm_num), he2,
      roundHalfEven_of _ (-8388608) (by norm_num) (by norm_num)]
    norm_num
  · rw [binary32, if_pos (by norm_num)]
    norm_num

/-- Every literal of `vertices` is a binary32 number: rounding leaves it unchanged. -/
theorem vertices_exact : vertices.map binary32 = vertices := by
  obtain ⟨h1, h2, h3⟩ := binary32_half
  simp [vertices, h1, h2, h3]

/-! ## The claims -/

/-- C1: `main` returns -1 exactly when `glfwCreateWindow` returns null or, the window
being non-null, `gladLoadGLLoader` reports failure; otherwise its exit code is 0 as
soon as the render loop is left (and it is left when the guard closes within the
bound).  When the window is null, standard output is exactly
"Failed to create GLFW window\n"; when the loader fails it is exactly
"Failed to initialize GLAD\n".  In both cases `glfwTerminate` is called exactly
once, as the last call, no call creates a GPU object, and no call of the render
loop (guard or body) is made. -/
theorem main_failure_paths (env : Env) (fuel : Nat) :
    ((main env fuel).exit = some (-1) ↔
      (env.createWindow = none ∨ (env.createWindow ≠ none ∧ env.loadGL = 0))) ∧
    (¬(env.createWindow = none ∨ (env.createWindow ≠ none ∧ env.loadGL = 0)) →
      ((main env fuel).exit = some 0 ∨ (main env fuel).exit = none) ∧
      ∀ n, runsFrames env n → n < fuel → (main env fuel).exit = some 0) ∧
    (env.createWindow = none →
      (main env fuel).world.stdout = "Failed to create GLFW window\n" ∧
      (main env fuel).world.trace = windowCalls ++ [.glfwTerminate]) ∧
    (∀ pWindow, env.createWindow = some pWindow → env.loadGL = 0 →
      (main env fuel).world.stdout = "Failed to initialize GLAD\n" ∧
      (main env fuel).world.trace = windowCalls ++ contextCalls pWindow ++ [.glfwTerminate]) ∧
    ((main env fuel).exit = some (-1) →
      (main env fuel).world.trace.count .glfwTerminate = 1 ∧
      (main env fuel).world.trace.getLast? = some .glfwTerminate ∧
      ∀ c ∈ (main env fuel).world.trace, c.createsObject = false ∧ c.isLoopCall = false) := by
  cases hwin : env.createWindow with
  | none =>
    rw [main_no_window env fuel hwin]
    refine ⟨by simp, by simp, by simp, by simp, ?_⟩
    intro _
    refine ⟨?_, ?_, ?_⟩
    · simp [windowCalls, List.count_cons]
    · simp [windowCalls]
    · simp [windowCalls, Call.createsObject, Call.isLoopCall]
  | some pWindow =>
    by_cases hload : env.loadGL = 0
    · rw [main_no_loader env pWindow fuel hwin hload]
      refine ⟨by simp [hload], by simp [hload], by simp, ?_, ?_⟩
      · intro p hp _
        cases hp
        exact ⟨rfl, rfl⟩
      · intro _
        refine ⟨?_, ?_, ?_⟩
        · simp [windowCalls, contextCalls, List.count_cons]
        · simp [windowCalls, contextCalls]
        · simp [windowCalls, contextCalls, Call.createsObject, Call.isLoopCall]
    · have hex := main_ok_exit env pWindow fuel hwin hload
      have hne : (main env fuel).exit ≠ some (-1) := by
        rcases hex with h | h <;> simp [h]
      refine ⟨by simp [hne, hload], ?_, by simp, ?_, ?_⟩
      · intro _
        refine ⟨hex, ?_⟩
        intro n hrun hfuel
        rw [main_success env pWindow n fuel hwin hload hrun hfuel]
      · intro p _ h0
        exact absurd h0 hload
      · intro h
        exact absurd h hne

/-- C3: for every combination of the three statuses, what `prepareShader` writes to
standard output is, in the order vertex, fragment, link, one line per stage whose
status is 0 and nothing else: "vertext shader compile fail! " ++ log ++ "\n",
"fragment shader compile fail! " ++ log ++ "\n", "shader link fail! " ++ log ++ "\n",
where log is the info log of that object queried with buffer length 512.  The info
logs queried are exactly those of the failed stages; when all three statuses are
non-zero nothing is printed and no info log is queried. -/
theorem prepareShader_output (env : Env) (shaderProgram : Nat) (w : World) :
    (prepareShader env shaderProgram w).stdout =
      w.stdout ++
        ((if env.compileStatus (env.createShader .GL_VERTEX_SHADER) = 0 then
            "vertext shader compile fail! " ++
              env.shaderInfoLog (env.createShader .GL_VERTEX_SHADER) 512 ++ "\n"
          else "") ++
        ((if env.compileStatus (env.createShader .GL_FRAGMENT_SHADER) = 0 then
            "fragment shader compile fail! " ++
              env.shaderInfoLog (env.createShader .GL_FRAGMENT_SHADER) 512 ++ "\n"
          else "") ++
        (if env.linkStatus shaderProgram = 0 then
            "shader link fail! " ++ env.programInfoLog shaderProgram 512 ++ "\n"
          else ""))) ∧
    ∃ t, (prepareShader env shaderProgram w).trace = w.trace ++ t ∧
      t.filter Call.isInfoLogQuery =
        (if env.compileStatus (env.createShader .GL_VERTEX_SHADER) = 0 then
            [.glGetShaderInfoLog (env.createShader .GL_VERTEX_SHADER) 512] else []) ++
        (if env.compileStatus (env.createShader .GL_FRAGMENT_SHADER) = 0 then
            [.glGetShaderInfoLog (env.createShader .GL_FRAGMENT_SHADER) 512] else []) ++
        (if env.linkStatus shaderProgram = 0 then
            [.glGetProgramInfoLog shaderProgram 512] else []) ∧
      (env.compileStatus (env.createShader .GL_VERTEX_SHADER) ≠ 0 →
        env.compileStatus (env.createShader .GL_FRAGMENT_SHADER) ≠ 0 →
        env.linkStatus shaderProgram ≠ 0 →
        (prepareShader env shaderProgram w).stdout = w.stdout ∧
        ∀ c ∈ t, c.isInfoLogQuery = false) := by
  rw [prepareShader_eq]
  refine ⟨rfl, prepareShaderCalls env shaderProgram, rfl, ?_, ?_⟩
  · unfold prepareShaderCalls vertexStageCalls fragmentStageCalls
    by_cases h1 : env.compileStatus (env.createShader .GL_VERTEX_SHADER) = 0 <;>
    by_cases h2 : env.compileStatus (env.createShader .GL_FRAGMENT_SHADER) = 0 <;>
    by_cases h3 : env.linkStatus shaderProgram = 0 <;>
    simp [h1, h2, h3, Call.isInfoLogQuery, List.filter_cons]
  · intro h1 h2 h3
    simp [prepareShaderOutput, prepareShaderCalls, vertexStageCalls, fragmentStageCalls, h1,
      h2, h3, Call.isInfoLogQuery]

/-- C10: when the two shader names returned by `glCreateShader` are distinct,
`prepareShader` creates exactly two shader objects, one vertex and one fragment, in
that order; for every combination of statuses each of them has its source set
exactly once, is compiled exactly once, is attached exactly once, to the program
and not after `glLinkProgram`, and is deleted exactly once, with no link,
link-status or link-log call after the deletion and no call taking the shader after
its deletion; `glLinkProgram` is called exactly once, on the program. -/
theorem prepareShader_shader_objects (env : Env) (shaderProgram : Nat) (w : World)
    (hne : env.createShader .GL_VERTEX_SHADER ≠ env.createShader .GL_FRAGMENT_SHADER) :
    ∃ t, (prepareShader env shaderProgram w).trace = w.trace ++ t ∧
      t.filter Call.isCreateShader =
        [ .glCreateShader .GL_VERTEX_SHADER (env.createShader .GL_VERTEX_SHADER),
          .glCreateShader .GL_FRAGMENT_SHADER (env.createShader .GL_FRAGMENT_SHADER) ] ∧
      t.filter Call.isLink = [.glLinkProgram shaderProgram] ∧
      (t.filter (Call.setsSource (env.createShader .GL_VERTEX_SHADER)) =
          [.glShaderSource (env.createShader .GL_VERTEX_SHADER) 1 vertexShaderSource] ∧
        t.filter (Call.setsSource (env.createShader .GL_FRAGMENT_SHADER)) =
          [.glShaderSource (env.createShader .GL_FRAGMENT_SHADER) 1 fragmentShaderSource]) ∧
      ∀ s, s = env.createShader .GL_VERTEX_SHADER ∨ s = env.createShader .GL_FRAGMENT_SHADER →
        t.filter (Call.compiles s) = [.glCompileShader s] ∧
        t.filter (Call.attaches s) = [.glAttachShader shaderProgram s] ∧
        t.filter (Call.deletesShader s) = [.glDeleteShader s] ∧
        noneAfter (Call.attaches s) Call.isLink t = true ∧
        noneAfter Call.isLinkStage (Call.deletesShader s) t = true ∧
        noneAfter (Call.usesShader s) (Call.deletesShader s) t = true := by
  have hne2 := hne.symm
  refine ⟨prepareShaderCalls env shaderProgram, by rw [prepareShader_eq], ?_⟩
  unfold prepareShaderCalls vertexStageCalls fragmentStageCalls
  by_cases h1 : env.compileStatus (env.createShader .GL_VERTEX_SHADER) = 0 <;>
  by_cases h2 : env.compileStatus (env.createShader .GL_FRAGMENT_SHADER) = 0 <;>
  by_cases h3 : env.linkStatus shaderProgram = 0 <;>
  · simp only [h1, h2, h3, if_true, if_false, List.append_nil, List.cons_append,
      List.nil_append]
    refine ⟨?_, ?_, ⟨?_, ?_⟩, ?_⟩
    · simp [Call.isCreateShader, List.filter_cons]
    · simp [Call.isLink, List.filter_cons]
    · simp [Call.setsSource, List.filter_cons, hne, hne2]
    · simp [Call.setsSource, List.filter_cons, hne, hne2]
    · rintro s (rfl | rfl) <;>
      simp [List.filter_cons, noneAfter, Call.compiles, Call.attaches,
        Call.deletesShader, Call.isLink, Call.isLinkStage, Call.usesShader, hne, hne2]

/-- C5 (amended): on the success path (window non-null, loader succeeds), when the
guard lets exactly `n` iterations start and the bound is not reached, `main` returns
0 and its trace is: `glfwInit`, the three window hints, `glfwCreateWindow`;
make-context-current, the registration of the resize callback, `gladLoadGLLoader`;
`glCreateProgram` and the calls of `prepareShader`; the generation of one vertex
array and two buffers and the calls of `prepareVertex`;
`glPolygonMode(FRONT_AND_BACK, LINE)`; then `n` iterations, each one the guard query
`glfwWindowShouldClose` followed by the calls of `processInput`,
`glClearColor(0.2f, 0.3f, 0.3f, 1.0f)`, `glClear(COLOR_BUFFER_BIT)`, the calls of
`drawTriangle`, `glfwSwapBuffers`, `glfwPollEvents` and one `glViewport(0, 0, w, h)`
of the resize callback for every framebuffer resize that poll reports; then the
guard query that leaves the loop, the four deletions, and `glfwTerminate` as the
last call.  With the guard queries and the calls of the resize callback left out,
the trace is the one the specification words.  The colour arguments are the binary32
values of the literals.  No call up to and including `gladLoadGLLoader` is a GL
call. -/
theorem main_success_trace (env : Env) (pWindow n fuel : Nat)
    (hwin : env.createWindow = some pWindow) (hload : env.loadGL ≠ 0)
    (hrun : runsFrames env n) (hfuel : n < fuel) :
    (main env fuel).exit = some 0 ∧
    (main env fuel).world.trace =
      windowCalls ++ contextCalls pWindow ++
        ([.glCreateProgram env.createProgram] ++ prepareShaderCalls env env.createProgram ++
          [ .glGenVertexArrays 1 env.genVertexArray, .glGenBuffers 1 (env.genBuffer 0),
            .glGenBuffers 1 (env.genBuffer 1) ] ++
          prepareVertexCalls env.genVertexArray (env.genBuffer 0) (env.genBuffer 1) ++
          [.glPolygonMode .GL_FRONT_AND_BACK .GL_LINE]) ++
        loopCalls env pWindow env.createProgram env.genVertexArray 0 n ++
        [.glfwWindowShouldClose pWindow] ++
        [ .glDeleteProgram env.createProgram, .glDeleteVertexArrays 1 env.genVertexArray,
          .glDeleteBuffers 1 (env.genBuffer 0), .glDeleteBuffers 1 (env.genBuffer 1),
          .glfwTerminate ] ∧
    (∀ k m, loopCalls env pWindow env.createProgram env.genVertexArray k (m + 1) =
      [.glfwWindowShouldClose pWindow] ++
        processInputCalls env pWindow k ++
        [ .glClearColor (binary32 0.2) (binary32 0.3) (binary32 0.3) (binary32 1.0),
          .glClear .GL_COLOR_BUFFER_BIT ] ++
        drawTriangleCalls env.createProgram env.genVertexArray ++
        [.glfwSwapBuffers pWindow, .glfwPollEvents] ++
        (env.resizes k).map (fun size => .glViewport 0 0 size.1 size.2) ++
        loopCalls env pWindow env.createProgram env.genVertexArray (k + 1) m) ∧
    (main env fuel).world.trace.filter (fun c => !(c.isGuard || c.isViewport)) =
      claimedTrace env pWindow n ∧
    (binary32 0.2 = 13421773 / 67108864 ∧ binary32 0.3 = 5033165 / 16777216 ∧
      binary32 1.0 = 1) ∧
    (main env fuel).world.trace.getLast? = some .glfwTerminate ∧
    (∀ c ∈ windowCalls ++ contextCalls pWindow, c.isGL = false) ∧
    (windowCalls ++ contextCalls pWindow).getLast? = some .gladLoadGLLoader := by
  rw [main_success env pWindow n fuel hwin hload hrun hfuel]
  refine ⟨rfl, ?_, ?_, ?_, ⟨binary32_one_fifth, binary32_three_tenths, binary32_one⟩,
    ?_, ?_, ?_⟩
  · simp [successTrace, setupCalls, cleanupCalls]
  · intro k m
    simp [loopCalls, bodyCalls, viewportCalls]
  · exact successTrace_filter env pWindow n
  · simp [successTrace, cleanupCalls, List.getLast?_append]
  · simp [windowCalls, contextCalls, Call.isGL]
  · simp [windowCalls, contextCalls]

/-- C5 as stated fails: in a run on the success path with two iterations whose first
poll reports one resize, the trace is not the claimed shape for any number of
iterations; next to the claimed calls it has the three guard queries and the
`glViewport` call of the resize callback. -/
theorem claimed_shape_fails :
    (resizeEnv.createWindow = some 7 ∧ resizeEnv.loadGL ≠ 0 ∧ runsFrames resizeEnv 2) ∧
    (main resizeEnv 5).exit = some 0 ∧
    (∀ n, (main resizeEnv 5).world.trace ≠ claimedTrace resizeEnv 7 n) ∧
    (main resizeEnv 5).world.trace.filter (fun c => c.isGuard || c.isViewport) =
      [ .glfwWindowShouldClose 7, .glViewport 0 0 640 480, .glfwWindowShouldClose 7,
        .glfwWindowShouldClose 7 ] := by
  have hrun : runsFrames resizeEnv 2 := ⟨by decide, by decide⟩
  have hm := main_success resizeEnv 7 2 5 rfl (by decide) hrun (by decide)
  refine ⟨⟨rfl, by decide, hrun⟩, by rw [hm], ?_, by decide⟩
  intro n h
  have hmem : Call.glfwWindowShouldClose 7 ∈ (main resizeEnv 5).world.trace := by
    rw [hm]
    simp [successTrace]
  rw [h] at hmem
  have := (claimedTrace_plain resizeEnv 7 n _ hmem).1
  simp [Call.isGuard] at this

/-- C6: `processInput` sets the should-close flag to true when the escape key state is
PRESS and leaves it unchanged otherwise; the loop leaves through its guard when the
flag is true and runs the body when it is false.  If iteration `i` is reached,
escape is pressed in it and the poll of that iteration does not clear the flag,
then that iteration (which still clears, draws, swaps and polls, the resize
callback being served by the poll) is the last one, cleanup follows and `main`
returns 0; if the flag is true at the first check, no
draw call is made at all and `main` returns 0. -/
theorem escape_closes (env : Env) (pWindow shaderProgram VAO fuel : Nat) (w : World) :
    ((processInput env pWindow w).shouldClose =
      if env.escapeKey w.polls = .GLFW_PRESS then true else w.shouldClose) ∧
    (w.shouldClose = true →
      renderLoop env pWindow shaderProgram VAO (fuel + 1) w =
        (emit (.glfwWindowShouldClose pWindow) w, true)) ∧
    (w.shouldClose = false →
      renderLoop env pWindow shaderProgram VAO (fuel + 1) w =
        renderLoop env pWindow shaderProgram VAO fuel
          (glfwPollEvents env (emit (.glfwSwapBuffers pWindow)
            (drawTriangle shaderProgram VAO (emit (.glClear .GL_COLOR_BUFFER_BIT)
              (emit
                (.glClearColor (binary32 0.2) (binary32 0.3) (binary32 0.3) (binary32 1.0))
                (processInput env pWindow (emit (.glfwWindowShouldClose pWindow) w)))))))) ∧
    (∀ i, env.createWindow = some pWindow → env.loadGL ≠ 0 →
      (∀ k, k ≤ i → flagAt env k = false) → env.escapeKey i = .GLFW_PRESS →
      env.pollEvents i true = true → i + 1 < fuel →
      (main env fuel).exit = some 0 ∧
      (main env fuel).world.trace =
        windowCalls ++ contextCalls pWindow ++ setupCalls env ++
          loopCalls env pWindow env.createProgram env.genVertexArray 0 i ++
          ([ .glfwWindowShouldClose pWindow, .glfwGetKey pWindow .GLFW_KEY_ESCAPE,
             .glfwSetWindowShouldClose pWindow true,
             .glClearColor (binary32 0.2) (binary32 0.3) (binary32 0.3) (binary32 1.0),
             .glClear .GL_COLOR_BUFFER_BIT ] ++
            drawTriangleCalls env.createProgram env.genVertexArray ++
            [ .glfwSwapBuffers pWindow, .glfwPollEvents ] ++ viewportCalls env i) ++
          [.glfwWindowShouldClose pWindow] ++ cleanupCalls env) ∧
    (env.createWindow = some pWindow → env.loadGL ≠ 0 → env.initialShouldClose = true →
      0 < fuel →
      (main env fuel).exit = some 0 ∧
      (main env fuel).world.trace =
        windowCalls ++ contextCalls pWindow ++ setupCalls env ++
          [.glfwWindowShouldClose pWindow] ++ cleanupCalls env ∧
      (main env fuel).world.trace.filter Call.isDraw = []) := by
  refine ⟨?_, ?_, ?_, ?_, ?_⟩
  · rw [processInput_eq]
    by_cases h : env.escapeKey w.polls = .GLFW_PRESS <;> simp [h]
  · intro h
    simp [renderLoop, glfwWindowShouldClose, h]
  · intro h
    simp [renderLoop, glfwWindowShouldClose, h]
  · intro i hwin hload hbefore hkey hpoll hfuel
    have hrun : runsFrames env (i + 1) :=
      ⟨fun k hk => hbefore k (by omega), by simp [flagAt, hkey, hpoll]⟩
    rw [main_success env pWindow (i + 1) fuel hwin hload hrun hfuel]
    refine ⟨rfl, ?_⟩
    simp [successTrace, loopCalls_succ_last, bodyCalls, processInputCalls, hkey]
  · intro hwin hload hinit hfuel
    have hrun : runsFrames env 0 := ⟨fun k hk => absurd hk (by omega), by simp [flagAt, hinit]⟩
    rw [main_success env pWindow 0 fuel hwin hload hrun hfuel]
    refine ⟨rfl, by simp [successTrace, loopCalls], ?_⟩
    have hs := prepareShaderCalls_stage env env.createProgram
    have hs2 : (prepareShaderCalls env env.createProgram).filter Call.isDraw = [] := by
      rw [List.filter_eq_nil_iff]
      intro c hc
      have := hs c hc
      cases c <;> simp_all [Call.isShaderStage, Call.isDraw]
    simp [successTrace, loopCalls, windowCalls, contextCalls, setupCalls, cleanupCalls,
      prepareVertexCalls, hs2, Call.isDraw, List.filter_cons]

/-- C2: with window creation and loader succeeding, for every combination of the
statuses and info logs the environment returns, `main` does not return -1, returns
0 when the guard closes within the bound, and its trace runs through the calls of
`prepareVertex`, `glPolygonMode` and (when the bound allows one guard evaluation)
the first loop guard.  A run in an environment that differs only in the three
statuses and the info logs has the same exit code, the same trace once the info-log
queries are removed, and the same should-close flag, poll count and buffer count;
the two runs differ only in the info-log queries and in standard output.  Whatever
the statuses and logs are replaced by, the loop is run as the guard says: when the
guard lets exactly `n` iterations start within the bound, the run has the complete
trace of the success path with its `n` iterations and exactly `n` draw calls, writes
the lines of the failed stages and returns 0; while the guard stays open the run is
still rendering, with one iteration and one draw call per guard evaluation. -/
theorem shader_failures_do_not_halt (env : Env) (pWindow fuel : Nat)
    (cs ls : Nat → Int) (sl pl : Nat → Nat → String)
    (hwin : env.createWindow = some pWindow) (hload : env.loadGL ≠ 0) :
    ((main env fuel).exit = some 0 ∨ (main env fuel).exit = none) ∧
    (∀ n, runsFrames env n → n < fuel → (main env fuel).exit = some 0) ∧
    (∃ rest, (main env fuel).world.trace =
        windowCalls ++ contextCalls pWindow ++
          ([.glCreateProgram env.createProgram] ++ prepareShaderCalls env env.createProgram ++
            [ .glGenVertexArrays 1 env.genVertexArray, .glGenBuffers 1 (env.genBuffer 0),
              .glGenBuffers 1 (env.genBuffer 1) ]) ++
          prepareVertexCalls env.genVertexArray (env.genBuffer 0) (env.genBuffer 1) ++
          [.glPolygonMode .GL_FRONT_AND_BACK .GL_LINE] ++ rest ∧
      (0 < fuel → rest.head? = some (.glfwWindowShouldClose pWindow))) ∧
    (main (withStatuses env cs ls sl pl) fuel).exit = (main env fuel).exit ∧
    (main (withStatuses env cs ls sl pl) fuel).world.trace.filter
        (fun c => !c.isInfoLogQuery) =
      (main env fuel).world.trace.filter (fun c => !c.isInfoLogQuery) ∧
    (main (withStatuses env cs ls sl pl) fuel).world.shouldClose =
      (main env fuel).world.shouldClose ∧
    (main (withStatuses env cs ls sl pl) fuel).world.polls = (main env fuel).world.polls ∧
    (main (withStatuses env cs ls sl pl) fuel).world.buffersGenerated =
      (main env fuel).world.buffersGenerated ∧
    (∀ n, runsFrames env n → n < fuel →
      (main (withStatuses env cs ls sl pl) fuel).exit = some 0 ∧
      (main (withStatuses env cs ls sl pl) fuel).world.trace =
        windowCalls ++ contextCalls pWindow ++ setupCalls (withStatuses env cs ls sl pl) ++
          loopCalls env pWindow env.createProgram env.genVertexArray 0 n ++
          [.glfwWindowShouldClose pWindow] ++ cleanupCalls env ∧
      (main (withStatuses env cs ls sl pl) fuel).world.trace.countP Call.isDraw = n ∧
      (main (withStatuses env cs ls sl pl) fuel).world.stdout =
        prepareShaderOutput (withStatuses env cs ls sl pl) env.createProgram) ∧
    ((∀ k, k < fuel → flagAt env k = false) →
      (main (withStatuses env cs ls sl pl) fuel).exit = none ∧
      (main (withStatuses env cs ls sl pl) fuel).world.trace =
        windowCalls ++ contextCalls pWindow ++ setupCalls (withStatuses env cs ls sl pl) ++
          loopCalls env pWindow env.createProgram env.genVertexArray 0 fuel ∧
      (main (withStatuses env cs ls sl pl) fuel).world.trace.countP Call.isDraw = fuel) := by
  have e1 := main_ok_eq env pWindow fuel hwin hload
  have e2 := main_ok_eq (withStatuses env cs ls sl pl) pWindow fuel hwin hload
  have hcp : (withStatuses env cs ls sl pl).createProgram = env.createProgram := rfl
  have hva : (withStatuses env cs ls sl pl).genVertexArray = env.genVertexArray := rfl
  have hini : (withStatuses env cs ls sl pl).initialShouldClose = env.initialShouldClose := rfl
  have hcl : cleanupCalls (withStatuses env cs ls sl pl) = cleanupCalls env := rfl
  rw [renderLoop_congr env (withStatuses env cs ls sl pl) pWindow _ _ rfl rfl rfl] at e2
  simp only [hcp, hva, hini, hcl] at e2
  obtain ⟨t, h1, h2, hhead, h3, h4, h5, h6, h7, h8, h9⟩ :=
    renderLoop_frame env pWindow env.createProgram env.genVertexArray fuel
      { trace := windowCalls ++ contextCalls pWindow ++ setupCalls env,
        stdout := prepareShaderOutput env env.createProgram,
        shouldClose := env.initialShouldClose, polls := 0, buffersGenerated := 2,
        resizeCallback := some pWindow }
      { trace := windowCalls ++ contextCalls pWindow ++
          setupCalls (withStatuses env cs ls sl pl),
        stdout := prepareShaderOutput (withStatuses env cs ls sl pl) env.createProgram,
        shouldClose := env.initialShouldClose, polls := 0, buffersGenerated := 2,
        resizeCallback := some pWindow }
      rfl rfl rfl rfl
  have hf : ∀ e : Env, e.createShader = env.createShader → e.createProgram = env.createProgram →
      e.genVertexArray = env.genVertexArray → e.genBuffer = env.genBuffer →
      (setupCalls e).filter (fun c => !c.isInfoLogQuery) =
        (setupCalls env).filter (fun c => !c.isInfoLogQuery) := by
    intro e hs hp hv hb
    simp only [setupCalls, List.filter_append, prepareShaderCalls_filter, hs, hp, hv, hb]
  have hf2 := hf (withStatuses env cs ls sl pl) rfl rfl rfl rfl
  rcases hr : renderLoop env pWindow env.createProgram env.genVertexArray fuel
      { trace := windowCalls ++ contextCalls pWindow ++ setupCalls env,
        stdout := prepareShaderOutput env env.createProgram,
        shouldClose := env.initialShouldClose, polls := 0, buffersGenerated := 2,
        resizeCallback := some pWindow }
    with ⟨wa, ba⟩
  rcases hr2 : renderLoop env pWindow env.createProgram env.genVertexArray fuel
      { trace := windowCalls ++ contextCalls pWindow ++
          setupCalls (withStatuses env cs ls sl pl),
        stdout := prepareShaderOutput (withStatuses env cs ls sl pl) env.createProgram,
        shouldClose := env.initialShouldClose, polls := 0, buffersGenerated := 2,
        resizeCallback := some pWindow }
    with ⟨wb, bb⟩
  have hflag : ∀ k, flagAt (withStatuses env cs ls sl pl) k = flagAt env k :=
    flagAt_congr env (withStatuses env cs ls sl pl) rfl rfl rfl
  have hloopc : ∀ n k, loopCalls (withStatuses env cs ls sl pl) pWindow env.createProgram
      env.genVertexArray k n = loopCalls env pWindow env.createProgram env.genVertexArray k n :=
    loopCalls_congr env (withStatuses env cs ls sl pl) pWindow _ _ rfl rfl
  have hN1 : ∀ n, runsFrames env n → n < fuel →
      (main (withStatuses env cs ls sl pl) fuel).exit = some 0 ∧
      (main (withStatuses env cs ls sl pl) fuel).world.trace =
        windowCalls ++ contextCalls pWindow ++ setupCalls (withStatuses env cs ls sl pl) ++
          loopCalls env pWindow env.createProgram env.genVertexArray 0 n ++
          [.glfwWindowShouldClose pWindow] ++ cleanupCalls env ∧
      (main (withStatuses env cs ls sl pl) fuel).world.trace.countP Call.isDraw = n ∧
      (main (withStatuses env cs ls sl pl) fuel).world.stdout =
        prepareShaderOutput (withStatuses env cs ls sl pl) env.createProgram := by
    intro n hrun hfuel
    have hrun2 : runsFrames (withStatuses env cs ls sl pl) n :=
      ⟨fun k hk => by rw [hflag]; exact hrun.1 k hk, by rw [hflag]; exact hrun.2⟩
    rw [main_success (withStatuses env cs ls sl pl) pWindow n fuel hwin hload hrun2 hfuel]
    refine ⟨rfl, ?_, ?_, rfl⟩
    · show successTrace (withStatuses env cs ls sl pl) pWindow n = _
      rw [successTrace, hcp, hva, hloopc, hcl]
    · simp only [successTrace, List.countP_append, setupCalls_draws, loopCalls_draws]
      simp [windowCalls, contextCalls, cleanupCalls, Call.isDraw, List.countP_cons]
  have hN2 : (∀ k, k < fuel → flagAt env k = false) →
      (main (withStatuses env cs ls sl pl) fuel).exit = none ∧
      (main (withStatuses env cs ls sl pl) fuel).world.trace =
        windowCalls ++ contextCalls pWindow ++ setupCalls (withStatuses env cs ls sl pl) ++
          loopCalls env pWindow env.createProgram env.genVertexArray 0 fuel ∧
      (main (withStatuses env cs ls sl pl) fuel).world.trace.countP Call.isDraw = fuel := by
    intro hopen
    rw [e2, renderLoop_running env pWindow env.createProgram env.genVertexArray fuel 0 _ rfl
      (by simp [flagAt]) rfl (by simpa using hopen)]
    refine ⟨rfl, rfl, ?_⟩
    simp only [List.countP_append, setupCalls_draws, loopCalls_draws]
    simp [windowCalls, contextCalls, Call.isDraw, List.countP_cons]
  rw [hr] at e1 h1 h3 h5 h7 h8 h9
  rw [hr2] at e2 h2 h4 h6 h7 h8 h9
  simp only at h1 h2 h3 h4 h5 h6 h7 h8 h9
  subst h9
  refine ⟨main_ok_exit env pWindow fuel hwin hload, ?_, ?_, ?_, ?_, ?_, ?_, ?_, hN1, hN2⟩
  · intro n hrun hfuel
    rw [main_success env pWindow n fuel hwin hload hrun hfuel]
  · cases ba
    · refine ⟨t, ?_, hhead⟩
      rw [e1]; simp [h1, setupCalls]
    · refine ⟨t ++ cleanupCalls env, ?_, ?_⟩
      · rw [e1]; simp [h1, setupCalls]
      · intro hfuel
        have := hhead hfuel
        cases t with
        | nil => simp at this
        | cons c t => simpa using this
  · rw [e1, e2]; cases ba <;> rfl
  · rw [e1, e2]
    cases ba <;> simp only [h1, h2, List.filter_append, hf2]
  · rw [e1, e2]; cases ba <;> simp [h7]
  · rw [e1, e2]; cases ba <;> simp [h8]
  · rw [e1, e2]; cases ba <;> simp [h5, h6]

/-- C4: on every run of `main` that leaves the render loop (exit code 0), when the
two generated buffer names are distinct: the calls creating a long-lived object are
exactly the four creations, each once; the calls deleting one are exactly the four
deletions, each handle once; no object is created after a call of the loop; no call
of the loop occurs after a deletion; no deletion occurs after `glfwTerminate`, which
is the last call; and for each of the program, the vertex array and the two buffers
no call takes the handle after its deletion. -/
theorem handles_lifetime (env : Env) (fuel : Nat)
    (hexit : (main env fuel).exit = some 0) (hbuf : env.genBuffer 0 ≠ env.genBuffer 1) :
    (main env fuel).world.trace.filter Call.createsHandle =
      [ .glCreateProgram env.createProgram, .glGenVertexArrays 1 env.genVertexArray,
        .glGenBuffers 1 (env.genBuffer 0), .glGenBuffers 1 (env.genBuffer 1) ] ∧
    (main env fuel).world.trace.filter Call.deletesObject =
      [ .glDeleteProgram env.createProgram, .glDeleteVertexArrays 1 env.genVertexArray,
        .glDeleteBuffers 1 (env.genBuffer 0), .glDeleteBuffers 1 (env.genBuffer 1) ] ∧
    ((main env fuel).world.trace.countP (Call.deletesProgram env.createProgram) = 1 ∧
      (main env fuel).world.trace.countP (Call.deletesVertexArray env.genVertexArray) = 1 ∧
      (main env fuel).world.trace.countP (Call.deletesBuffer (env.genBuffer 0)) = 1 ∧
      (main env fuel).world.trace.countP (Call.deletesBuffer (env.genBuffer 1)) = 1) ∧
    noneAfter Call.createsObject Call.isLoopCall (main env fuel).world.trace = true ∧
    noneAfter Call.isLoopCall Call.deletesObject (main env fuel).world.trace = true ∧
    (noneAfter Call.deletesObject Call.isTerminate (main env fuel).world.trace = true ∧
      (main env fuel).world.trace.getLast? = some .glfwTerminate) ∧
    noneAfter (Call.usesProgram env.createProgram) (Call.deletesProgram env.createProgram)
      (main env fuel).world.trace = true ∧
    noneAfter (Call.usesVertexArray env.genVertexArray)
      (Call.deletesVertexArray env.genVertexArray) (main env fuel).world.trace = true ∧
    noneAfter (Call.usesBuffer (env.genBuffer 0)) (Call.deletesBuffer (env.genBuffer 0))
      (main env fuel).world.trace = true ∧
    noneAfter (Call.usesBuffer (env.genBuffer 1)) (Call.deletesBuffer (env.genBuffer 1))
      (main env fuel).world.trace = true := by
  obtain ⟨pWindow, n, hwin, hload, hrun, hfuel⟩ := main_exit_zero env fuel hexit
  have hbuf2 := hbuf.symm
  rw [main_success env pWindow n fuel hwin hload hrun hfuel]
  simp only
  have hfront := beforeCleanup_no_delete env pWindow n
  have hfd := fun c hc => (hfront c hc).1
  have hft := fun c hc => (hfront c hc).2
  have hback := afterCreation_no_create env pWindow n
  have hcre := creation_no_loopCall env pWindow
  have hS : (prepareShaderCalls env env.createProgram).filter Call.createsHandle = [] := by
    rw [List.filter_eq_nil_iff]
    intro c hc
    have := prepareShaderCalls_stage env env.createProgram c hc
    cases c <;> simp_all [Call.isShaderStage, Call.createsHandle]
  refine ⟨?_, ?_, ⟨?_, ?_, ?_, ?_⟩, ?_, ?_, ⟨?_, ?_⟩, ?_, ?_, ?_, ?_⟩
  · rw [successTrace_split, List.filter_append,
      filter_nil_of _ _ (fun c hc => not_createsHandle_of c (hback c hc))]
    simp [windowCalls, contextCalls, hS, List.filter_cons, Call.createsHandle]
  · rw [successTrace, List.filter_append,
      filter_nil_of _ _ hfd]
    simp [cleanupCalls, List.filter_cons, Call.deletesObject]
  · rw [successTrace, List.countP_append,
      countP_zero_of _ _ (fun c hc => (not_deletes_of c (hfd c hc) _).1)]
    simp [cleanupCalls, List.countP_cons, Call.deletesProgram]
  · rw [successTrace, List.countP_append,
      countP_zero_of _ _ (fun c hc => (not_deletes_of c (hfd c hc) _).2.1)]
    simp [cleanupCalls, List.countP_cons, Call.deletesVertexArray]
  · rw [successTrace, List.countP_append,
      countP_zero_of _ _ (fun c hc => (not_deletes_of c (hfd c hc) _).2.2)]
    simp [cleanupCalls, List.countP_cons, Call.deletesBuffer, hbuf, hbuf2]
  · rw [successTrace, List.countP_append,
      countP_zero_of _ _ (fun c hc => (not_deletes_of c (hfd c hc) _).2.2)]
    simp [cleanupCalls, List.countP_cons, Call.deletesBuffer, hbuf, hbuf2]
  · rw [successTrace_split, noneAfter_append_right _ _ _ hback]
    exact noneAfter_of_no_q _ _ _ hcre
  · rw [successTrace, noneAfter_append_left _ _ _ _ hfd]
    simp [cleanupCalls, noneAfter, Call.isLoopCall, Call.deletesObject]
  · rw [successTrace, noneAfter_append_left _ _ _ _ hft]
    simp [cleanupCalls, noneAfter, Call.isTerminate, Call.deletesObject]
  · simp [successTrace, cleanupCalls, List.getLast?_append]
  · rw [successTrace, noneAfter_append_left _ _ _ _
      (fun c hc => (not_deletes_of c (hfd c hc) _).1)]
    simp [cleanupCalls, noneAfter, Call.usesProgram, Call.deletesProgram]
  · rw [successTrace, noneAfter_append_left _ _ _ _
      (fun c hc => (not_deletes_of c (hfd c hc) _).2.1)]
    simp [cleanupCalls, noneAfter, Call.usesVertexArray, Call.deletesVertexArray]
  · rw [successTrace, noneAfter_append_left _ _ _ _
      (fun c hc => (not_deletes_of c (hfd c hc) _).2.2)]
    simp [cleanupCalls, noneAfter, Call.usesBuffer, Call.deletesBuffer, hbuf, hbuf2]
  · rw [successTrace, noneAfter_append_left _ _ _ _
      (fun c hc => (not_deletes_of c (hfd c hc) _).2.2)]
    simp [cleanupCalls, noneAfter, Call.usesBuffer, Call.deletesBuffer, hbuf, hbuf2]

/-- C7: in the vertex-specification state, for non-zero handles with `VBO` and `EBO`
distinct, after the calls of `prepareVertex` the vertex array `VAO` records `EBO` as
its element array buffer and has attribute 0 enabled, sourced from `VBO` with 3 float
components, not normalised, stride 12 and offset 0; `VBO` holds the 48 bytes of
vertex data and `EBO` the 24 bytes of index data; the vertex-array and array-buffer
bindings of the context are 0.  The vertex array is already unbound, and still
records `EBO`, before the last two unbinding calls; every draw of `drawTriangle`,
alone or inside any number of loop iterations, is issued with `VAO` bound and `EBO`
as its index source. -/
theorem prepareVertex_state (VAO VBO EBO : Nat) (s : GLState)
    (hVAO : VAO ≠ 0) (hVBO : VBO ≠ 0) (hEBO : EBO ≠ 0) (hne : VBO ≠ EBO) :
    (afterPrepareVertex VAO VBO EBO s).elementBuffer VAO = EBO ∧
    (afterPrepareVertex VAO VBO EBO s).attribEnabled VAO 0 = true ∧
    (afterPrepareVertex VAO VBO EBO s).attribPointer VAO 0 =
      some { buffer := VBO, size := 3, type := .GL_FLOAT, normalized := false, stride := 12,
             offset := 0 } ∧
    ((afterPrepareVertex VAO VBO EBO s).bufferSize VBO = 48 ∧
      (afterPrepareVertex VAO VBO EBO s).bufferData VBO = some (.floats vertices)) ∧
    ((afterPrepareVertex VAO VBO EBO s).bufferSize EBO = 24 ∧
      (afterPrepareVertex VAO VBO EBO s).bufferData EBO = some (.uints indices)) ∧
    ((afterPrepareVertex VAO VBO EBO s).vertexArray = 0 ∧
      (afterPrepareVertex VAO VBO EBO s).arrayBuffer = 0) ∧
    ((glRun s ((prepareVertex VAO VBO EBO World.start).trace.take 8)).vertexArray = 0 ∧
      (glRun s ((prepareVertex VAO VBO EBO World.start).trace.take 8)).elementBuffer VAO =
        EBO) ∧
    (∀ shaderProgram,
      (glRun (afterPrepareVertex VAO VBO EBO s)
          (drawTriangle shaderProgram VAO World.start).trace).draws.map
          (fun d => (d.vertexArray, d.indexBuffer)) =
        (afterPrepareVertex VAO VBO EBO s).draws.map (fun d => (d.vertexArray, d.indexBuffer)) ++
          [(VAO, EBO)]) ∧
    (∀ (env : Env) (pWindow shaderProgram k n : Nat),
      (glRun (afterPrepareVertex VAO VBO EBO s)
          (loopCalls env pWindow shaderProgram VAO k n)).draws.map
          (fun d => (d.vertexArray, d.indexBuffer)) =
        (afterPrepareVertex VAO VBO EBO s).draws.map (fun d => (d.vertexArray, d.indexBuffer)) ++
          List.replicate n (VAO, EBO)) := by
  have hne2 := hne.symm
  rw [afterPrepareVertex_eq VAO VBO EBO s hVBO hEBO]
  refine ⟨?_, ?_, ?_, ⟨?_, ?_⟩, ⟨?_, ?_⟩, ⟨rfl, rfl⟩, ?_, ?_, ?_⟩
  · simp [Function.update, hVAO]
  · simp [Function.update]
  · simp [Function.update]
  · simp [Function.update, hne]
  · simp [Function.update, hne]
  · simp [Function.update]
  · simp [Function.update]
  · simp [prepareVertex_eq, World.start, prepareVertexCalls, glRun, glStep, GLState.bound,
      hVBO, hEBO, Function.update, hVAO]
  · intro shaderProgram
    simp [drawTriangle_eq, World.start, drawTriangleCalls, glRun, glStep, Function.update, hVAO]
  · intro env pWindow shaderProgram k n
    rw [glRun_loopCalls]
    simp [drawOf, Function.update, hVAO]


/-- C9: the draw call of `drawTriangle` is `glDrawElements(TRIANGLES, 6, UNSIGNED_INT, 0)`;
6 is the number of indices uploaded (24 bytes / 4); every uploaded index is less
than 4, the number of vertices uploaded (48 bytes / stride 12), so the fetch of
3 floats at bytes [12 i, 12 i + 12) lies inside the 48 bytes of the vertex buffer.
In the vertex-specification state after `prepareVertex` (non-zero handles, `VBO`
and `EBO` distinct) the draw consumes exactly the uploaded indices and is recorded
as in bounds, alone and in every loop iteration. -/
theorem draw_in_bounds (VAO VBO EBO shaderProgram : Nat) (s : GLState)
    (hVAO : VAO ≠ 0) (hVBO : VBO ≠ 0) (hEBO : EBO ≠ 0) (hne : VBO ≠ EBO) :
    (drawTriangle shaderProgram VAO World.start).trace.filter Call.isDraw =
      [.glDrawElements .GL_TRIANGLES 6 .GL_UNSIGNED_INT 0] ∧
    (6 = indices.length ∧ indices.length * sizeofUInt = 24 ∧ 24 / sizeofUInt = 6) ∧
    (vertices.length * sizeofFloat = 48 ∧ 3 * sizeofFloat = 12 ∧ 48 / 12 = 4) ∧
    (∀ i ∈ indices, i < 4 ∧ 12 * i + 12 ≤ 48) ∧
    (glRun (afterPrepareVertex VAO VBO EBO s)
        ((drawTriangle shaderProgram VAO World.start).trace.take 2)).fetched 6 0 = indices ∧
    (glRun (afterPrepareVertex VAO VBO EBO s)
        (drawTriangle shaderProgram VAO World.start).trace).draws =
      (afterPrepareVertex VAO VBO EBO s).draws ++
        [{ program := shaderProgram, vertexArray := VAO, indexBuffer := EBO,
           mode := .GL_TRIANGLES, count := 6, type := .GL_UNSIGNED_INT, offset := 0,
           inBounds := true }] ∧
    (∀ (env : Env) (pWindow k n : Nat),
      ∀ d ∈ (glRun (afterPrepareVertex VAO VBO EBO s)
          (loopCalls env pWindow shaderProgram VAO k n)).draws,
        d ∈ (afterPrepareVertex VAO VBO EBO s).draws ∨ d.inBounds = true) := by
  have hne2 := hne.symm
  have hd : drawOf (afterPrepareVertex VAO VBO EBO s) shaderProgram VAO =
      { program := shaderProgram, vertexArray := VAO, indexBuffer := EBO,
        mode := .GL_TRIANGLES, count := 6, type := .GL_UNSIGNED_INT, offset := 0,
        inBounds := true } := by
    rw [afterPrepareVertex_eq VAO VBO EBO s hVBO hEBO]
    simp [drawOf, GLState.drawInBounds, GLState.fetched, Function.update, hVAO, hne, hne2,
      indices, sizeofUInt, sizeofFloat]
  refine ⟨?_, ?_, ?_, ?_, ?_, ?_, ?_⟩
  · simp [drawTriangle_eq, World.start, drawTriangleCalls, Call.isDraw, List.filter_cons]
  · simp [indices, sizeofUInt]
  · simp [vertices, sizeofFloat]
  · simp [indices]
  · rw [afterPrepareVertex_eq VAO VBO EBO s hVBO hEBO]
    simp [drawTriangle_eq, World.start, drawTriangleCalls, glRun, glStep, GLState.fetched,
      Function.update, hVAO, hne, hne2, indices, sizeofUInt]
  · simp only [drawTriangle_eq, World.start, List.nil_append]
    rw [glRun_drawTriangle, hd]
  · intro env pWindow k n d hdm
    rw [glRun_loopCalls, hd] at hdm
    simp only [List.mem_append, List.mem_replicate] at hdm
    rcases hdm with h | ⟨_, rfl⟩
    · exact Or.inl h
    · exact Or.inr rfl

/-! ## Instances of the claims at concrete environments -/

theorem main_failure_paths_witness :
    ((main noWindowEnv 3).exit = some (-1) ∧
      (main noWindowEnv 3).world.stdout = "Failed to create GLFW window\n") ∧
    ((main noLoaderEnv 3).exit = some (-1) ∧
      (main noLoaderEnv 3).world.stdout = "Failed to initialize GLAD\n") ∧
    (main okEnv 3).exit = some 0 :=
  ⟨⟨(main_failure_paths noWindowEnv 3).1.mpr (Or.inl rfl),
     ((main_failure_paths noWindowEnv 3).2.2.1 rfl).1⟩,
   ⟨(main_failure_paths noLoaderEnv 3).1.mpr (Or.inr ⟨by decide, rfl⟩),
     ((main_failure_paths noLoaderEnv 3).2.2.2.1 7 rfl rfl).1⟩,
   ((main_failure_paths okEnv 3).2.1 (by decide)).2 2 ⟨by decide, by decide⟩ (by decide)⟩

theorem shader_failures_do_not_halt_witness :
    (okEnv.createWindow = some 7 ∧ okEnv.loadGL ≠ 0 ∧ runsFrames okEnv 2 ∧ 2 < 5) ∧
      (main failEnv 5).exit = (main okEnv 5).exit ∧
      (main failEnv 5).exit = some 0 ∧
      (main failEnv 5).world.trace.countP Call.isDraw = 2 :=
  ⟨⟨rfl, by decide, ⟨by decide, by decide⟩, by decide⟩,
   (shader_failures_do_not_halt okEnv 7 5 (fun _ => 0) (fun _ => 0) (fun _ _ => "E")
      (fun _ _ => "L") rfl (by decide)).2.2.2.1,
   ((shader_failures_do_not_halt okEnv 7 5 (fun _ => 0) (fun _ => 0) (fun _ _ => "E")
      (fun _ _ => "L") rfl (by decide)).2.2.2.2.2.2.2.2.1 2 ⟨by decide, by decide⟩
      (by decide)).1,
   ((shader_failures_do_not_halt okEnv 7 5 (fun _ => 0) (fun _ => 0) (fun _ _ => "E")
      (fun _ _ => "L") rfl (by decide)).2.2.2.2.2.2.2.2.1 2 ⟨by decide, by decide⟩
      (by decide)).2.2.1⟩

theorem prepareShader_output_witness :
    (prepareShader failEnv 3 World.start).stdout =
        "" ++ ("vertext shader compile fail! " ++ "E" ++ "\n" ++
          ("fragment shader compile fail! " ++ "E" ++ "\n" ++
            ("shader link fail! " ++ "L" ++ "\n"))) ∧
      (prepareShader okEnv 3 World.start).stdout = "" :=
  ⟨(prepareShader_output failEnv 3 World.start).1,
   (prepareShader_output okEnv 3 World.start).1⟩

theorem handles_lifetime_witness :
    ((main okEnv 5).exit = some 0 ∧ okEnv.genBuffer 0 ≠ okEnv.genBuffer 1) ∧
      (main okEnv 5).world.trace.filter Call.deletesObject =
        [ .glDeleteProgram 3, .glDeleteVertexArrays 1 1, .glDeleteBuffers 1 1,
          .glDeleteBuffers 1 2 ] :=
  ⟨⟨rfl, by decide⟩, (handles_lifetime okEnv 5 rfl (by decide)).2.1⟩

theorem main_success_trace_witness :
    (resizeEnv.createWindow = some 7 ∧ resizeEnv.loadGL ≠ 0 ∧ runsFrames resizeEnv 2 ∧
        2 < 5) ∧
      (main resizeEnv 5).exit = some 0 ∧
      (main resizeEnv 5).world.trace.filter (fun c => !(c.isGuard || c.isViewport)) =
        claimedTrace resizeEnv 7 2 ∧
      (main resizeEnv 5).world.trace.getLast? = some .glfwTerminate :=
  ⟨⟨rfl, by decide, ⟨by decide, by decide⟩, by decide⟩,
   (main_success_trace resizeEnv 7 2 5 rfl (by decide) ⟨by decide, by decide⟩ (by decide)).1,
   (main_success_trace resizeEnv 7 2 5 rfl (by decide) ⟨by decide, by decide⟩
      (by decide)).2.2.2.1,
   (main_success_trace resizeEnv 7 2 5 rfl (by decide) ⟨by decide, by decide⟩
      (by decide)).2.2.2.2.2.1⟩

theorem escape_closes_witness :
    (okEnv.escapeKey 1 = .GLFW_PRESS ∧ okEnv.pollEvents 1 true = true) ∧
      (main okEnv 5).exit = some 0 :=
  ⟨⟨rfl, rfl⟩,
   ((escape_closes okEnv 7 3 1 5 World.start).2.2.2.1 1 rfl (by decide) (by decide) rfl rfl
      (by decide)).1⟩

theorem prepareVertex_state_witness :
    ((1 : Nat) ≠ 0 ∧ (1 : Nat) ≠ 0 ∧ (2 : Nat) ≠ 0 ∧ (1 : Nat) ≠ 2) ∧
      (afterPrepareVertex 1 1 2 GLState.start).elementBuffer 1 = 2 ∧
      (afterPrepareVertex 1 1 2 GLState.start).attribEnabled 1 0 = true :=
  ⟨⟨by decide, by decide, by decide, by decide⟩,
   (prepareVertex_state 1 1 2 GLState.start (by decide) (by decide) (by decide) (by decide)).1,
   (prepareVertex_state 1 1 2 GLState.start (by decide) (by decide) (by decide)
      (by decide)).2.1⟩

theorem draw_in_bounds_witness :
    ((1 : Nat) ≠ 0 ∧ (1 : Nat) ≠ 0 ∧ (2 : Nat) ≠ 0 ∧ (1 : Nat) ≠ 2) ∧
      (glRun (afterPrepareVertex 1 1 2 GLState.start)
          (drawTriangle 3 1 World.start).trace).draws =
        (afterPrepareVertex 1 1 2 GLState.start).draws ++
          [{ program := 3, vertexArray := 1, indexBuffer := 2, mode := .GL_TRIANGLES,
             count := 6, type := .GL_UNSIGNED_INT, offset := 0, inBounds := true }] :=
  ⟨⟨by decide, by decide, by decide, by decide⟩,
   (draw_in_bounds 1 1 2 3 GLState.start (by decide) (by decide) (by decide)
      (by decide)).2.2.2.2.2.1⟩

theorem prepareShader_shader_objects_witness :
    okEnv.createShader .GL_VERTEX_SHADER ≠ okEnv.createShader .GL_FRAGMENT_SHADER ∧
      ∃ t, (prepareShader okEnv 3 World.start).trace = World.start.trace ++ t ∧
        t.filter Call.isLink = [.glLinkProgram 3] :=
  ⟨by decide,
   (prepareShader_shader_objects okEnv 3 World.start (by decide)).elim
     fun t h => ⟨t, h.1, h.2.2.1⟩⟩

end LearnOpenGL
